import Mathlib

/-!
Shallow embedding of the LS-8 emulator (`ls8/cpu.py`).
Python integers are unbounded, so every machine value is modelled as `Int`;
Python list indexing (including negative indices) is modelled by `pyGet` and
`pySet`; fallible operations return `Except MachErr`.
-/

namespace LS8

/-- Fatal errors raised by the emulator: Python IndexError (from list access or
the explicit RAM bounds check), ZeroDivisionError, ValueError (negative shift
count), the unsupported-ALU-operation exception, and the
unimplemented-instruction exception. -/
inductive MachErr where
  | indexError
  | zeroDivisionError
  | valueError
  | unsupportedOperation
  | unsupportedInstruction (b : Int)
deriving Repr, DecidableEq

/-- Python list index resolution: a nonnegative index is valid when below the
length; a negative index counts from the end and is valid when `len + i ≥ 0`. -/
def pyIdx (len : Nat) (i : Int) : Option Nat :=
  if 0 ≤ i then
    if i < (len : Int) then some i.toNat else none
  else
    if 0 ≤ i + (len : Int) then some (i + (len : Int)).toNat else none

/-- Python `l[i]` on a list of integers. -/
def pyGet (l : List Int) (i : Int) : Except MachErr Int :=
  match pyIdx l.length i with
  | some n => .ok (l.getD n 0)
  | none => .error .indexError

/-- Python `l[i] = v` on a list of integers. -/
def pySet (l : List Int) (i : Int) (v : Int) : Except MachErr (List Int) :=
  match pyIdx l.length i with
  | some n => .ok (l.set n v)
  | none => .error .indexError

/-- Python left shift `a << b`: raises ValueError on a negative shift count,
otherwise multiplies by the corresponding power of two (Mathlib Int shift). -/
def pyShl (a b : Int) : Except MachErr Int :=
  if b < 0 then .error .valueError else .ok (a <<< b)

/-- Python right shift `a >> b`: arithmetic shift, ValueError when negative. -/
def pyShr (a b : Int) : Except MachErr Int :=
  if b < 0 then .error .valueError else .ok (a >>> b)

/-- The CPU state: special registers `pc`, `ir`, `mar`, `mdr`, `fl`, the RAM
(256 cells on initialization), the register file (8 cells, `reg[7]` is SP),
and the interrupt-enabled flag, exactly the attributes set in `CPU.__init__`. -/
structure CPUState where
  pc : Int
  ir : Int
  mar : Int
  mdr : Int
  fl : Int
  ram : List Int
  reg : List Int
  interrupts_enabled : Bool
deriving Repr, DecidableEq, Inhabited

/-- `CPU.__init__`: zeroed special registers, 256 zero RAM cells, 8 zero
registers with `reg[7] = 0xF4`, interrupts enabled. -/
def initCPU : CPUState :=
  { pc := 0, ir := 0, mar := 0, mdr := 0, fl := 0
    ram := List.replicate 256 0
    reg := (List.replicate 8 0).set 7 0xF4
    interrupts_enabled := true }

/-- `CPU.ram_read`: explicit bounds check `address < len(ram) and address >= 0`,
then direct indexing. -/
def ram_read (ram : List Int) (address : Int) : Except MachErr Int :=
  if address < (ram.length : Int) ∧ 0 ≤ address then .ok (ram.getD address.toNat 0)
  else .error .indexError

/-- `CPU.ram_write`: same bounds check, then direct store (the value is stored
verbatim, with no truncation). -/
def ram_write (ram : List Int) (value address : Int) : Except MachErr (List Int) :=
  if address < (ram.length : Int) ∧ 0 ≤ address then .ok (ram.set address.toNat value)
  else .error .indexError

/-- `CPU.load`: copy the program into RAM starting at address 0. -/
def loadFrom (ram : List Int) (address : Int) : List Int → Except MachErr (List Int)
  | [] => .ok ram
  | instruction :: rest => do
    let ram' ← pySet ram address instruction
    loadFrom ram' (address + 1) rest

/-- `CPU.load` applied to a state. -/
def load (s : CPUState) (program : List Int) : Except MachErr CPUState := do
  let ram ← loadFrom s.ram 0 program
  pure { s with ram := ram }

/-- `CPU.stack_push`: decrement SP (register 7), then `ram_write` the value at
the new SP. -/
def stack_push (s : CPUState) (value : Int) : Except MachErr CPUState := do
  let sp ← pyGet s.reg 7
  let reg ← pySet s.reg 7 (sp - 1)
  let ram ← ram_write s.ram value (sp - 1)
  pure { s with reg := reg, ram := ram }

/-- `CPU.stack_pop`: increment SP, then return the RAM value at `reg[7] - 1`. -/
def stack_pop (s : CPUState) : Except MachErr (CPUState × Int) := do
  let sp ← pyGet s.reg 7
  let reg ← pySet s.reg 7 (sp + 1)
  let v ← ram_read s.ram ((sp + 1) - 1)
  pure ({ s with reg := reg }, v)

/-- `CPU.alu`: dispatch on the operation name exactly as the source's if/elif
chain.  Arithmetic is unbounded (Python ints); `//` is floor division and `%`
is Python modulo (`Int.fdiv` / `Int.fmod`); bitwise operations use the
two-complement integer semantics (`Int.land` etc.); division and modulo by
zero raise ZeroDivisionError. -/
def alu (op : String) (reg_a reg_b : Int) (s : CPUState) : Except MachErr CPUState :=
  if op = "ADD" then do
    let a ← pyGet s.reg reg_a
    let b ← pyGet s.reg reg_b
    let reg ← pySet s.reg reg_a (a + b)
    pure { s with reg := reg }
  else if op = "SUB" then do
    let a ← pyGet s.reg reg_a
    let b ← pyGet s.reg reg_b
    let reg ← pySet s.reg reg_a (a - b)
    pure { s with reg := reg }
  else if op = "MUL" then do
    let a ← pyGet s.reg reg_a
    let b ← pyGet s.reg reg_b
    let reg ← pySet s.reg reg_a (a * b)
    pure { s with reg := reg }
  else if op = "DIV" then do
    let a ← pyGet s.reg reg_a
    let b ← pyGet s.reg reg_b
    if b = 0 then .error .zeroDivisionError
    else do
      let reg ← pySet s.reg reg_a (Int.fdiv a b)
      pure { s with reg := reg }
  else if op = "MOD" then do
    let a ← pyGet s.reg reg_a
    let b ← pyGet s.reg reg_b
    if b = 0 then .error .zeroDivisionError
    else do
      let reg ← pySet s.reg reg_a (Int.fmod a b)
      pure { s with reg := reg }
  else if op = "DEC" then do
    let a ← pyGet s.reg reg_a
    let reg ← pySet s.reg reg_a (a - 1)
    pure { s with reg := reg }
  else if op = "INC" then do
    let a ← pyGet s.reg reg_a
    let reg ← pySet s.reg reg_a (a + 1)
    pure { s with reg := reg }
  else if op = "AND" then do
    let a ← pyGet s.reg reg_a
    let b ← pyGet s.reg reg_b
    let reg ← pySet s.reg reg_a (Int.land a b)
    pure { s with reg := reg }
  else if op = "OR" then do
    let a ← pyGet s.reg reg_a
    let b ← pyGet s.reg reg_b
    let reg ← pySet s.reg reg_a (Int.lor a b)
    pure { s with reg := reg }
  else if op = "XOR" then do
    let a ← pyGet s.reg reg_a
    let b ← pyGet s.reg reg_b
    let reg ← pySet s.reg reg_a (Int.xor a b)
    pure { s with reg := reg }
  else if op = "NOT" then do
    let a ← pyGet s.reg reg_a
    let reg ← pySet s.reg reg_a (Int.lnot a)
    pure { s with reg := reg }
  else if op = "SHL" then do
    let a ← pyGet s.reg reg_a
    let b ← pyGet s.reg reg_b
    let r ← pyShl a b
    let reg ← pySet s.reg reg_a r
    pure { s with reg := reg }
  else if op = "SHR" then do
    let a ← pyGet s.reg reg_a
    let b ← pyGet s.reg reg_b
    let r ← pyShr a b
    let reg ← pySet s.reg reg_a r
    pure { s with reg := reg }
  else if op = "CMP" then do
    let a ← pyGet s.reg reg_a
    let b ← pyGet s.reg reg_b
    if a < b then pure { s with fl := 0b0000100 }
    else if a > b then pure { s with fl := 0b0000010 }
    else pure { s with fl := 0b0000001 }
  else .error .unsupportedOperation

/-- Console output events: `print(mdr)` from PRN and `print(chr(mdr))` from
PRA. -/
inductive OutEvent where
  | prn (v : Int)
  | pra (v : Int)
deriving Repr, DecidableEq

/-- Python `print` rendering: PRN writes the decimal value and a newline; PRA
writes the character and the newline `print` appends. -/
def renderEvent : OutEvent → String
  | .prn v => toString v ++ "\n"
  | .pra v => String.singleton (Char.ofNat v.toNat) ++ "\n"

/-- Concatenated console output of a run. -/
def renderOut (out : List OutEvent) : String :=
  String.join (out.map renderEvent)

/-- Result of one trip through the body of the `while running` loop (after a
possible interrupt trap): the new state, the console output emitted, whether
`running` is still true, and whether the branch ended in `continue` (skipping
the generic PC advance). -/
structure StepResult where
  state : CPUState
  output : List OutEvent
  running : Bool
  jumped : Bool
deriving Repr, DecidableEq, Inhabited

/-- The generic post-instruction advance `pc += (ir >> 6) + 1`. -/
def pcAdvance (s : CPUState) : CPUState :=
  { s with pc := s.pc + (s.ir >>> (6 : Int)) + 1 }

/-- Finish an instruction that falls through to the generic PC advance. -/
def stepNext (s : CPUState) (out : List OutEvent) (running : Bool) : StepResult :=
  { state := pcAdvance s, output := out, running := running, jumped := false }

/-- Finish an instruction whose branch ends in `continue`. -/
def stepJump (s : CPUState) : StepResult :=
  { state := s, output := [], running := true, jumped := true }

/-- The scan `for i in range(8): if mask & masked: ...; mask <<= 1` that finds
the lowest pending interrupt bit, returning its index. -/
def findPendingAux (masked mask : Int) (i : Nat) : Nat → Option Nat
  | 0 => none
  | rem + 1 =>
    if Int.land mask masked ≠ 0 then some i
    else findPendingAux masked (mask <<< (1 : Int)) (i + 1) rem

/-- The full 8-bit scan starting from `mask = 0b00000001`. -/
def findPending (masked : Int) : Option Nat :=
  findPendingAux masked 0b00000001 0 8

/-- The loop `for j in range(7): self.stack_push(self.reg[j])`. -/
def pushRegsAux (s : CPUState) (j : Nat) : Nat → Except MachErr CPUState
  | 0 => .ok s
  | rem + 1 => do
    let v ← pyGet s.reg (j : Int)
    let s' ← stack_push s v
    pushRegsAux s' (j + 1) rem

/-- The body executed when pending interrupt bit `i` is found: disable
interrupts, clear IS, push PC, FL, then registers 0..6, and set PC from the
vector table at `248 + i`. -/
def doTrap (s : CPUState) (i : Nat) : Except MachErr CPUState := do
  let s := { s with interrupts_enabled := false }
  let reg ← pySet s.reg 6 0
  let s := { s with reg := reg }
  let s ← stack_push s s.pc
  let s ← stack_push s s.fl
  let s ← pushRegsAux s 0 7
  let v ← ram_read s.ram (248 + (i : Int))
  pure { s with pc := v }

/-- The interrupt-dispatch portion of the main loop (the
`if self.interrupts_enabled:` block): compute `masked_interrupts = IM & IS`,
scan for the lowest set bit, and trap on it. -/
def interruptCheck (s : CPUState) : Except MachErr CPUState :=
  if s.interrupts_enabled then do
    let im ← pyGet s.reg 5
    let istat ← pyGet s.reg 6
    let masked_interrupts := Int.land im istat
    match findPending masked_interrupts with
    | some i => doTrap s i
    | none => pure s
  else pure s

/-- The IRET loop `for i in range(6,-1,-1): self.reg[i] = self.stack_pop()`:
with argument `rem + 1` the register at index `rem` is popped next, so
`popRegs s 7` restores registers 6 down to 0. -/
def popRegs (s : CPUState) : Nat → Except MachErr CPUState
  | 0 => .ok s
  | rem + 1 => do
    let (s', v) ← stack_pop s
    let reg ← pySet s'.reg (rem : Int) v
    popRegs { s' with reg := reg } rem

/-- One fetch-decode-execute trip through the main loop body (the part after
the interrupt check): fetch `ir = ram_read(pc)`, dispatch on the opcode with
the same if/elif chain as the source, and apply the generic PC advance on
every branch that does not end in `continue`. -/
def execInstr (s0 : CPUState) : Except MachErr StepResult := do
  let ir ← ram_read s0.ram s0.pc
  let s := { s0 with ir := ir }
  if ir = 0b10000010 then  -- LDI
    let mar ← ram_read s.ram (s.pc + 1)
    let mdr ← ram_read s.ram (s.pc + 2)
    let s := { s with mar := mar, mdr := mdr }
    let reg ← pySet s.reg s.mar s.mdr
    pure (stepNext { s with reg := reg } [] true)
  else if ir = 0b01000111 then  -- PRN
    let mar ← ram_read s.ram (s.pc + 1)
    let mdr ← pyGet s.reg mar
    pure (stepNext { s with mar := mar, mdr := mdr } [.prn mdr] true)
  else if ir = 0b01001000 then  -- PRA
    let mar ← ram_read s.ram (s.pc + 1)
    let mdr ← pyGet s.reg mar
    pure (stepNext { s with mar := mar, mdr := mdr } [.pra mdr] true)
  else if ir = 0b10100000 then  -- ADD
    let a ← ram_read s.ram (s.pc + 1)
    let b ← ram_read s.ram (s.pc + 2)
    let s ← alu "ADD" a b s
    pure (stepNext s [] true)
  else if ir = 0b10100001 then  -- SUB
    let a ← ram_read s.ram (s.pc + 1)
    let b ← ram_read s.ram (s.pc + 2)
    let s ← alu "SUB" a b s
    pure (stepNext s [] true)
  else if ir = 0b10100010 then  -- MUL
    let a ← ram_read s.ram (s.pc + 1)
    let b ← ram_read s.ram (s.pc + 2)
    let s ← alu "MUL" a b s
    pure (stepNext s [] true)
  else if ir = 0b10100011 then  -- DIV
    let a ← ram_read s.ram (s.pc + 1)
    let b ← ram_read s.ram (s.pc + 2)
    let s ← alu "DIV" a b s
    pure (stepNext s [] true)
  else if ir = 0b10100100 then  -- MOD
    let a ← ram_read s.ram (s.pc + 1)
    let b ← ram_read s.ram (s.pc + 2)
    let s ← alu "MOD" a b s
    pure (stepNext s [] true)
  else if ir = 0b10101000 then  -- AND
    let a ← ram_read s.ram (s.pc + 1)
    let b ← ram_read s.ram (s.pc + 2)
    let s ← alu "AND" a b s
    pure (stepNext s [] true)
  else if ir = 0b10101010 then  -- OR
    let a ← ram_read s.ram (s.pc + 1)
    let b ← ram_read s.ram (s.pc + 2)
    let s ← alu "OR" a b s
    pure (stepNext s [] true)
  else if ir = 0b10101011 then  -- XOR
    let a ← ram_read s.ram (s.pc + 1)
    let b ← ram_read s.ram (s.pc + 2)
    let s ← alu "XOR" a b s
    pure (stepNext s [] true)
  else if ir = 0b01101001 then  -- NOT
    let a ← ram_read s.ram (s.pc + 1)
    let s ← alu "NOT" a 0 s
    pure (stepNext s [] true)
  else if ir = 0b10101100 then  -- SHL
    let a ← ram_read s.ram (s.pc + 1)
    let b ← ram_read s.ram (s.pc + 2)
    let s ← alu "SHL" a b s
    pure (stepNext s [] true)
  else if ir = 0b10101101 then  -- SHR
    let a ← ram_read s.ram (s.pc + 1)
    let b ← ram_read s.ram (s.pc + 2)
    let s ← alu "SHR" a b s
    pure (stepNext s [] true)
  else if ir = 0b01100110 then  -- DEC
    let a ← ram_read s.ram (s.pc + 1)
    let s ← alu "DEC" a 0 s
    pure (stepNext s [] true)
  else if ir = 0b01100101 then  -- INC
    let a ← ram_read s.ram (s.pc + 1)
    let s ← alu "INC" a 0 s
    pure (stepNext s [] true)
  else if ir = 0b10100111 then  -- CMP
    let a ← ram_read s.ram (s.pc + 1)
    let b ← ram_read s.ram (s.pc + 2)
    let s ← alu "CMP" a b s
    pure (stepNext s [] true)
  else if ir = 0b01010100 then  -- JMP
    let r ← ram_read s.ram (s.pc + 1)
    let t ← pyGet s.reg r
    pure (stepJump { s with pc := t })
  else if ir = 0b01010101 then  -- JEQ: E mask
    if Int.land s.fl 0b00000001 ≠ 0 then do
      let r ← ram_read s.ram (s.pc + 1)
      let t ← pyGet s.reg r
      pure (stepJump { s with pc := t })
    else pure (stepNext s [] true)
  else if ir = 0b01011010 then  -- JGE: G or E mask
    if Int.land s.fl 0b00000011 ≠ 0 then do
      let r ← ram_read s.ram (s.pc + 1)
      let t ← pyGet s.reg r
      pure (stepJump { s with pc := t })
    else pure (stepNext s [] true)
  else if ir = 0b01010111 then  -- JGT: G mask
    if Int.land s.fl 0b00000010 ≠ 0 then do
      let r ← ram_read s.ram (s.pc + 1)
      let t ← pyGet s.reg r
      pure (stepJump { s with pc := t })
    else pure (stepNext s [] true)
  else if ir = 0b01011001 then  -- JLE: tests mask 0b100, as in the source
    if Int.land s.fl 0b00000100 ≠ 0 then do
      let r ← ram_read s.ram (s.pc + 1)
      let t ← pyGet s.reg r
      pure (stepJump { s with pc := t })
    else pure (stepNext s [] true)
  else if ir = 0b01011000 then  -- JLT: tests mask 0b101, as in the source
    if Int.land s.fl 0b00000101 ≠ 0 then do
      let r ← ram_read s.ram (s.pc + 1)
      let t ← pyGet s.reg r
      pure (stepJump { s with pc := t })
    else pure (stepNext s [] true)
  else if ir = 0b01010110 then  -- JNE: not E
    if ¬ Int.land s.fl 0b00000001 ≠ 0 then do
      let r ← ram_read s.ram (s.pc + 1)
      let t ← pyGet s.reg r
      pure (stepJump { s with pc := t })
    else pure (stepNext s [] true)
  else if ir = 0b01000101 then  -- PUSH
    let r ← ram_read s.ram (s.pc + 1)
    let value ← pyGet s.reg r
    let s ← stack_push s value
    pure (stepNext s [] true)
  else if ir = 0b01000110 then  -- POP
    let (s', v) ← stack_pop s
    let r ← ram_read s'.ram (s'.pc + 1)
    let reg ← pySet s'.reg r v
    pure (stepNext { s' with reg := reg } [] true)
  else if ir = 0b10000100 then  -- ST
    let ra ← ram_read s.ram (s.pc + 1)
    let rb ← ram_read s.ram (s.pc + 2)
    let mar ← pyGet s.reg ra
    let mdr ← pyGet s.reg rb
    let s := { s with mar := mar, mdr := mdr }
    let ram ← ram_write s.ram s.mdr s.mar
    pure (stepNext { s with ram := ram } [] true)
  else if ir = 0b10000011 then  -- LD
    let rb ← ram_read s.ram (s.pc + 2)
    let mar ← pyGet s.reg rb
    let mdr ← ram_read s.ram mar
    let s := { s with mar := mar, mdr := mdr }
    let ra ← ram_read s.ram (s.pc + 1)
    let reg ← pySet s.reg ra s.mdr
    pure (stepNext { s with reg := reg } [] true)
  else if ir = 0b01010010 then  -- INT
    let r ← ram_read s.ram (s.pc + 1)
    let n ← pyGet s.reg r
    let bit ← pyShl 1 n
    let reg ← pySet s.reg 6 bit
    pure (stepNext { s with reg := reg } [] true)
  else if ir = 0b00010011 then  -- IRET
    let s ← popRegs s 7
    let (s, flv) ← stack_pop s
    let s := { s with fl := flv }
    let (s, pcv) ← stack_pop s
    pure (stepJump { s with pc := pcv, interrupts_enabled := true })
  else if ir = 0b00000001 then  -- HLT
    pure (stepNext s [] false)
  else .error (.unsupportedInstruction ir)

/-- The `while running` loop with explicit fuel and no external timer tick or
key input: each iteration runs the interrupt check, then one instruction.
`.ok none` means the fuel ran out while still running; `.ok (some (s, out))`
means HLT was executed. -/
def runLoop : Nat → CPUState → List OutEvent → Except MachErr (Option (CPUState × List OutEvent))
  | 0, _, _ => .ok none
  | fuel + 1, s, acc => do
    let s1 ← interruptCheck s
    let r ← execInstr s1
    let acc' := acc ++ r.output
    if r.running then runLoop fuel r.state acc'
    else .ok (some (r.state, acc'))

/-- `CPU.run` with fuel, collecting console output. -/
def run (fuel : Nat) (s : CPUState) : Except MachErr (Option (CPUState × List OutEvent)) :=
  runLoop fuel s []

/-! ### Basic list and monad lemmas -/

theorem getD_set_self (l : List Int) (n : Nat) (v d : Int) (h : n < l.length) :
    (l.set n v).getD n d = v := by
  simp [List.getD_eq_getElem?_getD, List.getElem?_set_self, h]

theorem getD_set_other (l : List Int) (n m : Nat) (v d : Int) (h : n ≠ m) :
    (l.set n v).getD m d = l.getD m d := by
  simp [List.getD_eq_getElem?_getD, List.getElem?_set_ne, h]

theorem pyIdx_nonneg (len : Nat) (i : Int) (h0 : 0 ≤ i) (h1 : i < (len : Int)) :
    pyIdx len i = some i.toNat := by
  simp [pyIdx, h0, h1]

theorem pyGet_nonneg (l : List Int) (i : Int) (h0 : 0 ≤ i) (h1 : i < (l.length : Int)) :
    pyGet l i = .ok (l.getD i.toNat 0) := by
  simp [pyGet, pyIdx_nonneg _ _ h0 h1]

theorem pySet_nonneg (l : List Int) (i v : Int) (h0 : 0 ≤ i) (h1 : i < (l.length : Int)) :
    pySet l i v = .ok (l.set i.toNat v) := by
  simp [pySet, pyIdx_nonneg _ _ h0 h1]

theorem ram_read_ok (ram : List Int) (a : Int) (h0 : 0 ≤ a) (h1 : a < (ram.length : Int)) :
    ram_read ram a = .ok (ram.getD a.toNat 0) := by
  simp [ram_read, h0, h1]

theorem ram_write_ok (ram : List Int) (v a : Int) (h0 : 0 ≤ a) (h1 : a < (ram.length : Int)) :
    ram_write ram v a = .ok (ram.set a.toNat v) := by
  simp [ram_write, h0, h1]

theorem bind_eq_ok {α β : Type} {x : Except MachErr α} {f : α → Except MachErr β} {b : β} :
    (x >>= f) = .ok b ↔ ∃ a, x = .ok a ∧ f a = .ok b := by
  cases x <;> simp [Bind.bind, Except.bind]

theorem pure_eq_ok {α : Type} {a b : α} :
    (pure a : Except MachErr α) = .ok b ↔ a = b := by
  simp [Pure.pure, Except.pure, eq_comm]

theorem ok_bind {α β : Type} (a : α) (f : α → Except MachErr β) :
    ((.ok a : Except MachErr α) >>= f) = f a := rfl

/-- On a byte value the interrupt mask 0xFF is the identity. -/
theorem land_255 (n : Nat) (h : n < 256) : 255 &&& n = n := by
  apply Nat.eq_of_testBit_eq
  intro i
  rw [Nat.testBit_and]
  by_cases hi : i < 8
  · have h255 : Nat.testBit 255 i = true := by interval_cases i <;> decide
    simp [h255]
  · have h255 : Nat.testBit 255 i = false := by
      apply Nat.testBit_lt_two_pow
      calc 255 < 2 ^ 8 := by norm_num
        _ ≤ 2 ^ i := Nat.pow_le_pow_right (by norm_num) (by omega)
    have hn : Nat.testBit n i = false := by
      apply Nat.testBit_lt_two_pow
      calc n < 2 ^ 8 := h
        _ ≤ 2 ^ i := Nat.pow_le_pow_right (by norm_num) (by omega)
    simp [h255, hn]

/-! ### C2: ALU arithmetic does not wrap to 8 bits -/

/-- The exact, unbounded integer result the ALU writes back for each
register-writing operation (the comparison target for claim C2). -/
def aluBinResult (op : String) (a b : Int) : Int :=
  if op = "ADD" then a + b
  else if op = "SUB" then a - b
  else if op = "MUL" then a * b
  else if op = "DIV" then Int.fdiv a b
  else if op = "MOD" then Int.fmod a b
  else if op = "DEC" then a - 1
  else if op = "INC" then a + 1
  else if op = "AND" then Int.land a b
  else if op = "OR" then Int.lor a b
  else if op = "XOR" then Int.xor a b
  else if op = "NOT" then Int.lnot a
  else if op = "SHL" then a <<< b
  else if op = "SHR" then a >>> b
  else 0

/-- C2 counterexample: with register contents 200 and 200 (both in 0..255),
ADD writes back 400, which does not lie in 0..255 — the claimed modulo-256
wrap does not happen. -/
theorem alu_add_wrap_fails :
    (alu "ADD" 0 1
        { pc := 0, ir := 0, mar := 0, mdr := 0, fl := 0, ram := [0],
          reg := [200, 200, 0, 0, 0, 0, 0, 244], interrupts_enabled := true }).map
      (fun t => t.reg.getD 0 0) = .ok 400 ∧ ¬ ((400 : Int) < 256) := by
  exact ⟨rfl, by decide⟩

/-- C2 (amended): for every ALU operation in the claimed list, the value
written back to the destination register is the exact, unbounded integer
result of the operation — no modulo-256 reduction is applied (so it can leave
0..255, as the counterexample shows). -/
theorem alu_exact_result (op : String)
    (hop : op ∈ ["ADD", "SUB", "MUL", "DIV", "MOD", "INC", "DEC", "AND", "OR", "XOR", "NOT", "SHL", "SHR"])
    (s : CPUState) (ra rb a b : Int)
    (hra0 : 0 ≤ ra) (hra : ra < (s.reg.length : Int))
    (hrb0 : 0 ≤ rb) (hrb : rb < (s.reg.length : Int))
    (ha : s.reg.getD ra.toNat 0 = a) (hb : s.reg.getD rb.toNat 0 = b)
    (hdiv : op = "DIV" ∨ op = "MOD" → b ≠ 0)
    (hshift : op = "SHL" ∨ op = "SHR" → 0 ≤ b) :
    alu op ra rb s = .ok { s with reg := s.reg.set ra.toNat (aluBinResult op a b) } := by
  have hga := pyGet_nonneg s.reg ra hra0 hra
  have hgb := pyGet_nonneg s.reg rb hrb0 hrb
  rw [ha] at hga
  rw [hb] at hgb
  have hset := fun v => pySet_nonneg s.reg ra v hra0 hra
  fin_cases hop
  · simp [alu, aluBinResult, hga, hgb, ok_bind, hset]
  · simp [alu, aluBinResult, hga, hgb, ok_bind, hset]
  · simp [alu, aluBinResult, hga, hgb, ok_bind, hset]
  · simp [alu, aluBinResult, hga, hgb, ok_bind, hset, hdiv (Or.inl rfl)]
  · simp [alu, aluBinResult, hga, hgb, ok_bind, hset, hdiv (Or.inr rfl)]
  · simp [alu, aluBinResult, hga, hgb, ok_bind, hset]
  · simp [alu, aluBinResult, hga, hgb, ok_bind, hset]
  · simp [alu, aluBinResult, hga, hgb, ok_bind, hset]
  · simp [alu, aluBinResult, hga, hgb, ok_bind, hset]
  · simp [alu, aluBinResult, hga, hgb, ok_bind, hset]
  · simp [alu, aluBinResult, hga, hgb, ok_bind, hset]
  · simp [alu, aluBinResult, hga, hgb, ok_bind, hset, pyShl, not_lt.mpr (hshift (Or.inl rfl))]
  · simp [alu, aluBinResult, hga, hgb, ok_bind, hset, pyShr, not_lt.mpr (hshift (Or.inr rfl))]

/-- C2 witness: the amended theorem applied at ADD with registers 200 and
200, giving the unwrapped value 400. -/
theorem alu_exact_result_witness :
    alu "ADD" 0 1
        { pc := 0, ir := 0, mar := 0, mdr := 0, fl := 0, ram := [0],
          reg := [200, 200, 0, 0, 0, 0, 0, 244], interrupts_enabled := true } =
      .ok { pc := 0, ir := 0, mar := 0, mdr := 0, fl := 0, ram := [0],
            reg := [400, 200, 0, 0, 0, 0, 0, 244], interrupts_enabled := true } := by
  rw [alu_exact_result "ADD" (by simp)
    { pc := 0, ir := 0, mar := 0, mdr := 0, fl := 0, ram := [0],
      reg := [200, 200, 0, 0, 0, 0, 0, 244], interrupts_enabled := true }
    0 1 200 200 (by decide) (by decide) (by decide) (by decide) rfl rfl
    (by decide) (by decide)]
  rfl

/-! ### C3: RAM write/read round trip stores values verbatim -/

set_option maxRecDepth 20000 in
/-- C3 counterexample: writing 300 to address 0 and reading it back returns
300, not `300 mod 256 = 44` — no truncation to 8 bits happens on write. -/
theorem ram_write_truncate_fails :
    ((ram_write (List.replicate 256 0) 300 0) >>= fun r => ram_read r 0) = .ok 300 ∧
    (300 : Int) % 256 = 44 ∧ ¬ ((300 : Int) = 44) :=
  ⟨rfl, by decide, by decide⟩

/-- C3 (amended): for every in-range address, `write(a, v); read(a)` returns
exactly `v` — the value is stored verbatim, with no modulo-256 wrap. -/
theorem ram_write_read_exact (ram : List Int) (a v : Int)
    (h0 : 0 ≤ a) (h1 : a < (ram.length : Int)) :
    ((ram_write ram v a) >>= fun r => ram_read r a) = .ok v := by
  rw [ram_write_ok ram v a h0 h1, ok_bind,
    ram_read_ok _ _ h0 (by simpa using h1),
    getD_set_self _ _ _ _ ((Int.toNat_lt h0).mpr h1)]

/-- C3 witness: the amended round trip at address 1 with value 300. -/
theorem ram_write_read_exact_witness :
    ((ram_write [0, 0, 0] 300 1) >>= fun r => ram_read r 1) = .ok 300 :=
  ram_write_read_exact [0, 0, 0] 1 300 (by decide) (by decide)

/-! ### Stack lemmas and C8 -/

/-- Forward characterization of `stack_push` under in-bounds hypotheses. -/
theorem stack_push_ok (s : CPUState) (v sp : Int)
    (hlen : s.reg.length = 8) (hsp : s.reg.getD 7 0 = sp)
    (h0 : 1 ≤ sp) (h1 : sp - 1 < (s.ram.length : Int)) :
    stack_push s v =
      .ok { s with reg := s.reg.set 7 (sp - 1), ram := s.ram.set (sp - 1).toNat v } := by
  have h7 : (7 : Int) < (s.reg.length : Int) := by rw [hlen]; decide
  have hsp' : s.reg.getD ((7 : Int).toNat) 0 = sp := hsp
  simp only [stack_push, pyGet_nonneg s.reg 7 (by decide) h7, hsp', ok_bind,
    pySet_nonneg s.reg 7 (sp - 1) (by decide) h7, ok_bind,
    ram_write_ok s.ram v (sp - 1) (by omega) h1, ok_bind]
  rfl

/-- Forward characterization of `stack_pop` under in-bounds hypotheses. -/
theorem stack_pop_ok (s : CPUState) (sp : Int)
    (hlen : s.reg.length = 8) (hsp : s.reg.getD 7 0 = sp)
    (h0 : 0 ≤ sp) (h1 : sp < (s.ram.length : Int)) :
    stack_pop s = .ok ({ s with reg := s.reg.set 7 (sp + 1) }, s.ram.getD sp.toNat 0) := by
  have h7 : (7 : Int) < (s.reg.length : Int) := by rw [hlen]; decide
  have hsp' : s.reg.getD ((7 : Int).toNat) 0 = sp := hsp
  simp only [stack_pop, pyGet_nonneg s.reg 7 (by decide) h7, hsp', ok_bind,
    pySet_nonneg s.reg 7 (sp + 1) (by decide) h7, ok_bind,
    show sp + 1 - 1 = sp from by ring,
    ram_read_ok s.ram sp h0 h1, ok_bind]
  rfl

/-- C8: pushing a value and popping it returns the same value and restores
the stack pointer, whenever both accesses stay inside memory bounds. -/
theorem push_pop_round_trip (s : CPUState) (v sp : Int)
    (hlen : s.reg.length = 8) (hsp : s.reg.getD 7 0 = sp)
    (h1 : 1 ≤ sp) (h2 : sp ≤ (s.ram.length : Int)) :
    ∃ s1 s2, stack_push s v = .ok s1 ∧ stack_pop s1 = .ok (s2, v) ∧
      s2.reg.getD 7 0 = sp := by
  have hpush := stack_push_ok s v sp hlen hsp h1 (by omega)
  have hlen1 : ({ s with reg := s.reg.set 7 (sp - 1), ram := s.ram.set (sp - 1).toNat v } : CPUState).reg.length = 8 := by
    simpa using hlen
  have hsp1 : ({ s with reg := s.reg.set 7 (sp - 1), ram := s.ram.set (sp - 1).toNat v } : CPUState).reg.getD 7 0 = sp - 1 :=
    getD_set_self s.reg 7 (sp - 1) 0 (by omega)
  have hpop := stack_pop_ok
    { s with reg := s.reg.set 7 (sp - 1), ram := s.ram.set (sp - 1).toNat v }
    (sp - 1) hlen1 hsp1 (by omega) (by simp only [List.length_set]; omega)
  have hval : (s.ram.set (sp - 1).toNat v).getD ((sp - 1).toNat) 0 = v :=
    getD_set_self s.ram ((sp - 1).toNat) v 0 ((Int.toNat_lt (by omega)).mpr (by omega))
  rw [show ({ s with reg := s.reg.set 7 (sp - 1), ram := s.ram.set (sp - 1).toNat v } : CPUState).ram = s.ram.set (sp - 1).toNat v from rfl, hval] at hpop
  refine ⟨_, _, hpush, hpop, ?_⟩
  have : ((s.reg.set 7 (sp - 1)).set 7 (sp - 1 + 1)).getD 7 0 = sp - 1 + 1 :=
    getD_set_self _ 7 _ 0 (by simp only [List.length_set]; omega)
  simpa [show sp - 1 + 1 = sp from by ring] using this

/-- C8 witness: the round trip at stack pointer 4 with value 99. -/
theorem push_pop_round_trip_witness :
    ∃ s1 s2, stack_push { pc := 0, ir := 0, mar := 0, mdr := 0, fl := 0, ram := [0, 0, 0, 0], reg := [0, 0, 0, 0, 0, 0, 0, 4], interrupts_enabled := true } 99 = .ok s1 ∧ stack_pop s1 = .ok (s2, 99) ∧ s2.reg.getD 7 0 = 4 :=
  push_pop_round_trip _ 99 4 rfl rfl (by decide) (by decide)

/-! ### C1: the JLE and JLT flag masks are swapped in the source -/

set_option maxRecDepth 20000 in
/-- C1: with FL = 0b001 (only the E flag set) the opcode 0b01011001 (JLE,
which per the spec must jump when L or E is set) falls through to the
generic advance (PC becomes 2, no jump), while the opcode 0b01011000 (JLT,
which must jump only when L is set) jumps to the register target 100: the
source tests mask 0b100 for JLE and mask 0b101 for JLT, the two masks
being swapped with respect to the mnemonics. -/
theorem jle_jlt_masks_swapped :
    (execInstr { pc := 0, ir := 0, mar := 0, mdr := 0, fl := 0b00000001, ram := [0b01011001, 0], reg := [100, 0, 0, 0, 0, 0, 0, 244], interrupts_enabled := true }).map (fun r => (r.state.pc, r.jumped)) = .ok (2, false) ∧
    (execInstr { pc := 0, ir := 0, mar := 0, mdr := 0, fl := 0b00000001, ram := [0b01011000, 0], reg := [100, 0, 0, 0, 0, 0, 0, 244], interrupts_enabled := true }).map (fun r => (r.state.pc, r.jumped)) = .ok (100, true) :=
  ⟨rfl, rfl⟩

/-! ### C4: INT overwrites the Interrupt Status register -/

set_option maxRecDepth 20000 in
/-- C4 counterexample: with IS = 2 already pending, executing INT with
operand register holding 0 leaves IS = 1, not `2 OR 1 = 3` — the pending
bit is discarded, contradicting the claimed OR-accumulation. -/
theorem int_pending_overwritten :
    (execInstr { pc := 0, ir := 0, mar := 0, mdr := 0, fl := 0, ram := [0b01010010, 0], reg := [0, 0, 0, 0, 0, 0, 2, 244], interrupts_enabled := true }).map (fun r => r.state.reg.getD 6 0) = .ok 1 ∧ ¬ ((1 : Int) = Int.lor 2 1) :=
  ⟨rfl, by decide⟩

/-- C4 (amended): executing INT with operand register holding `n ≥ 0` sets
IS to exactly `1 <<< n` by plain assignment, discarding any previously
pending IS bits, and then applies the generic two-byte advance. -/
theorem int_sets_is_exactly (s : CPUState) (r n : Int)
    (hlen : s.reg.length = 8)
    (hfetch : ram_read s.ram s.pc = .ok 0b01010010)
    (hr : ram_read s.ram (s.pc + 1) = .ok r)
    (hr0 : 0 ≤ r) (hr8 : r < (s.reg.length : Int))
    (hn : s.reg.getD r.toNat 0 = n) (hn0 : 0 ≤ n) :
    execInstr s = .ok { state := { s with ir := 0b01010010, reg := s.reg.set 6 ((1 : Int) <<< n), pc := s.pc + 2 }, output := [], running := true, jumped := false } := by
  unfold execInstr
  rw [hfetch, ok_bind]
  norm_num
  rw [hr, ok_bind]
  rw [pyGet_nonneg s.reg r hr0 hr8, hn, ok_bind]
  rw [show pyShl 1 n = .ok ((1 : Int) <<< n) from by simp [pyShl, not_lt.mpr hn0], ok_bind]
  rw [pySet_nonneg s.reg 6 _ (by decide) (by rw [hlen]; decide)]
  have h82 : ((82 : Int) >>> (6 : Int)) = 1 := by decide
  simp [Functor.map, Except.map, stepNext, pcAdvance, h82]
  ring

/-- C4 witness: the amended theorem at IS = 2 pending and n = 0. -/
theorem int_sets_is_exactly_witness :
    execInstr { pc := 0, ir := 0, mar := 0, mdr := 0, fl := 0, ram := [0b01010010, 0], reg := [0, 0, 0, 0, 0, 0, 2, 244], interrupts_enabled := true } = .ok { state := { pc := 2, ir := 0b01010010, mar := 0, mdr := 0, fl := 0, ram := [0b01010010, 0], reg := ([0, 0, 0, 0, 0, 0, 2, 244] : List Int).set 6 ((1 : Int) <<< (0 : Int)), interrupts_enabled := true }, output := [], running := true, jumped := false } :=
  int_sets_is_exactly _ 0 0 rfl rfl rfl (by decide) (by decide) rfl (by decide)

/-! ### C9: end-to-end ADD program -/

/-- The bytecode of the end-to-end test program: LDI R0,8; LDI R1,9;
ADD R0,R1; PRN R0; HLT. -/
def c9prog : List Int := [0x82, 0, 8, 0x82, 1, 9, 0xA0, 0, 1, 0x47, 0, 0x01]

set_option maxRecDepth 100000 in
/-- C9: loading the program into a fresh engine and running it (no timer
tick, no key input) halts and produces exactly the output event PRN 17,
rendering as the console text 17 followed by a newline. -/
theorem end_to_end_add_program :
    ((load initCPU c9prog) >>= run 10).map (Option.map (fun p => p.2)) = .ok (some [OutEvent.prn 17]) ∧
    ((load initCPU c9prog) >>= run 10).map (Option.map (fun p => renderOut p.2)) = .ok (some "17\n") :=
  ⟨rfl, rfl⟩

/-! ### Interrupt controller lemmas -/

theorem land_coe (a b : Nat) : Int.land (a : Int) (b : Int) = ((a &&& b : Nat) : Int) := rfl

theorem land_pow_ne (j m : Nat) :
    (Int.land ((2 ^ j : Nat) : Int) (m : Int) ≠ 0) ↔ m.testBit j = true := by
  rw [land_coe, Nat.and_comm, Nat.and_two_pow]
  cases h : m.testBit j <;> simp [h]

/-- The bit scan of the interrupt controller returns the lowest set bit of a
byte-sized pending mask. -/
theorem findPending_spec (m : Nat) (i : Nat) (hi : i < 8)
    (ht : m.testBit i = true) (hlow : ∀ j < i, m.testBit j = false) :
    findPending ((m : Nat) : Int) = some i := by
  have c0 := (show ((2 ^ 0 : Nat) : Int) = 1 from by norm_num) ▸ land_pow_ne 0 m
  have c1 := (show ((2 ^ 1 : Nat) : Int) = 2 from by norm_num) ▸ land_pow_ne 1 m
  have c2 := (show ((2 ^ 2 : Nat) : Int) = 4 from by norm_num) ▸ land_pow_ne 2 m
  have c3 := (show ((2 ^ 3 : Nat) : Int) = 8 from by norm_num) ▸ land_pow_ne 3 m
  have c4 := (show ((2 ^ 4 : Nat) : Int) = 16 from by norm_num) ▸ land_pow_ne 4 m
  have c5 := (show ((2 ^ 5 : Nat) : Int) = 32 from by norm_num) ▸ land_pow_ne 5 m
  have c6 := (show ((2 ^ 6 : Nat) : Int) = 64 from by norm_num) ▸ land_pow_ne 6 m
  have c7 := (show ((2 ^ 7 : Nat) : Int) = 128 from by norm_num) ▸ land_pow_ne 7 m
  have s1 : (1 : Int) <<< (1 : Int) = 2 := by decide
  have s2 : (2 : Int) <<< (1 : Int) = 4 := by decide
  have s3 : (4 : Int) <<< (1 : Int) = 8 := by decide
  have s4 : (8 : Int) <<< (1 : Int) = 16 := by decide
  have s5 : (16 : Int) <<< (1 : Int) = 32 := by decide
  have s6 : (32 : Int) <<< (1 : Int) = 64 := by decide
  have s7 : (64 : Int) <<< (1 : Int) = 128 := by decide
  interval_cases i
  · simp only [findPending, findPendingAux, s1, s2, s3, s4, s5, s6, s7, c0]
    simp [ht]
  · simp only [findPending, findPendingAux, s1, s2, s3, s4, s5, s6, s7, c0, c1]
    simp [ht, hlow 0 (by omega)]
  · simp only [findPending, findPendingAux, s1, s2, s3, s4, s5, s6, s7, c0, c1, c2]
    simp [ht, hlow 0 (by omega), hlow 1 (by omega)]
  · simp only [findPending, findPendingAux, s1, s2, s3, s4, s5, s6, s7, c0, c1, c2, c3]
    simp [ht, hlow 0 (by omega), hlow 1 (by omega), hlow 2 (by omega)]
  · simp only [findPending, findPendingAux, s1, s2, s3, s4, s5, s6, s7, c0, c1, c2, c3, c4]
    simp [ht, hlow 0 (by omega), hlow 1 (by omega), hlow 2 (by omega), hlow 3 (by omega)]
  · simp only [findPending, findPendingAux, s1, s2, s3, s4, s5, s6, s7, c0, c1, c2, c3, c4, c5]
    simp [ht, hlow 0 (by omega), hlow 1 (by omega), hlow 2 (by omega), hlow 3 (by omega), hlow 4 (by omega)]
  · simp only [findPending, findPendingAux, s1, s2, s3, s4, s5, s6, s7, c0, c1, c2, c3, c4, c5, c6]
    simp [ht, hlow 0 (by omega), hlow 1 (by omega), hlow 2 (by omega), hlow 3 (by omega), hlow 4 (by omega), hlow 5 (by omega)]
  · simp only [findPending, findPendingAux, s1, s2, s3, s4, s5, s6, s7, c0, c1, c2, c3, c4, c5, c6, c7]
    simp [ht, hlow 0 (by omega), hlow 1 (by omega), hlow 2 (by omega), hlow 3 (by omega), hlow 4 (by omega), hlow 5 (by omega), hlow 6 (by omega)]

set_option maxHeartbeats 1000000 in
/-- Forward characterization of the trap body: under the bounds hypotheses,
`doTrap` disables interrupts, clears IS, performs the nine pushes in order
(PC, FL, registers 0..6 — register 6 already cleared to 0), and sets PC from
the untouched vector-table entry at `248 + i`. -/
theorem doTrap_ok (s : CPUState) (sp : Int) (i : Nat)
    (hreg : s.reg.length = 8) (hram : s.ram.length = 256)
    (hsp : s.reg.getD 7 0 = sp) (h9 : 9 ≤ sp) (h248 : sp ≤ 248) (hi : i < 8) :
    doTrap s i = .ok { s with
      interrupts_enabled := false,
      reg := (s.reg.set 6 0).set 7 (sp - 9),
      ram := ((((((((s.ram.set (sp - 1).toNat s.pc).set (sp - 2).toNat s.fl).set (sp - 3).toNat (s.reg.getD 0 0)).set (sp - 4).toNat (s.reg.getD 1 0)).set (sp - 5).toNat (s.reg.getD 2 0)).set (sp - 6).toNat (s.reg.getD 3 0)).set (sp - 7).toNat (s.reg.getD 4 0)).set (sp - 8).toNat (s.reg.getD 5 0)).set (sp - 9).toNat 0,
      pc := s.ram.getD (248 + i) 0 } := by
  have hclr : pySet s.reg 6 0 = .ok (s.reg.set 6 0) := by
    have := pySet_nonneg s.reg 6 0 (by decide) (by rw [hreg]; decide)
    simpa using this
  have hlenR : (s.reg.set 6 0).length = 8 := by simpa using hreg
  have hspR : (s.reg.set 6 0).getD 7 0 = sp := by
    rw [getD_set_other s.reg 6 7 0 0 (by decide)]; exact hsp
  have hp1 : stack_push { s with interrupts_enabled := false, reg := s.reg.set 6 0 } s.pc = .ok { s with interrupts_enabled := false, reg := (s.reg.set 6 0).set 7 (sp - 1), ram := s.ram.set (sp - 1).toNat s.pc } := by
    have := stack_push_ok { s with interrupts_enabled := false, reg := s.reg.set 6 0 } s.pc sp (by simpa using hreg) (by simpa using hspR) (by omega) (by simp only [List.length_set]; rw [hram]; omega)
    simpa using this
  have hp2 : stack_push { s with interrupts_enabled := false, reg := (s.reg.set 6 0).set 7 (sp - 1), ram := s.ram.set (sp - 1).toNat s.pc } s.fl = .ok { s with interrupts_enabled := false, reg := (s.reg.set 6 0).set 7 (sp - 2), ram := (s.ram.set (sp - 1).toNat s.pc).set (sp - 2).toNat s.fl } := by
    have := stack_push_ok { s with interrupts_enabled := false, reg := (s.reg.set 6 0).set 7 (sp - 1), ram := s.ram.set (sp - 1).toNat s.pc } s.fl (sp - 1) (by simp only [List.length_set]; simpa using hreg) (by simpa using getD_set_self (s.reg.set 6 0) 7 (sp - 1) 0 (by rw [hlenR]; omega)) (by omega) (by simp only [List.length_set]; rw [hram]; omega)
    rw [List.set_set] at this
    have harith : sp - 1 - 1 = sp - 2 := by ring
    rw [harith] at this
    simpa using this
  have hp3 : stack_push { s with interrupts_enabled := false, reg := (s.reg.set 6 0).set 7 (sp - 2), ram := (s.ram.set (sp - 1).toNat s.pc).set (sp - 2).toNat s.fl } (s.reg.getD 0 0) = .ok { s with interrupts_enabled := false, reg := (s.reg.set 6 0).set 7 (sp - 3), ram := ((s.ram.set (sp - 1).toNat s.pc).set (sp - 2).toNat s.fl).set (sp - 3).toNat (s.reg.getD 0 0) } := by
    have := stack_push_ok { s with interrupts_enabled := false, reg := (s.reg.set 6 0).set 7 (sp - 2), ram := (s.ram.set (sp - 1).toNat s.pc).set (sp - 2).toNat s.fl } (s.reg.getD 0 0) (sp - 2) (by simp only [List.length_set]; simpa using hreg) (by simpa using getD_set_self (s.reg.set 6 0) 7 (sp - 2) 0 (by rw [hlenR]; omega)) (by omega) (by simp only [List.length_set]; rw [hram]; omega)
    rw [List.set_set] at this
    have harith : sp - 2 - 1 = sp - 3 := by ring
    rw [harith] at this
    simpa using this
  have hp4 : stack_push { s with interrupts_enabled := false, reg := (s.reg.set 6 0).set 7 (sp - 3), ram := ((s.ram.set (sp - 1).toNat s.pc).set (sp - 2).toNat s.fl).set (sp - 3).toNat (s.reg.getD 0 0) } (s.reg.getD 1 0) = .ok { s with interrupts_enabled := false, reg := (s.reg.set 6 0).set 7 (sp - 4), ram := (((s.ram.set (sp - 1).toNat s.pc).set (sp - 2).toNat s.fl).set (sp - 3).toNat (s.reg.getD 0 0)).set (sp - 4).toNat (s.reg.getD 1 0) } := by
    have := stack_push_ok { s with interrupts_enabled := false, reg := (s.reg.set 6 0).set 7 (sp - 3), ram := ((s.ram.set (sp - 1).toNat s.pc).set (sp - 2).toNat s.fl).set (sp - 3).toNat (s.reg.getD 0 0) } (s.reg.getD 1 0) (sp - 3) (by simp only [List.length_set]; simpa using hreg) (by simpa using getD_set_self (s.reg.set 6 0) 7 (sp - 3) 0 (by rw [hlenR]; omega)) (by omega) (by simp only [List.length_set]; rw [hram]; omega)
    rw [List.set_set] at this
    have harith : sp - 3 - 1 = sp - 4 := by ring
    rw [harith] at this
    simpa using this
  have hp5 : stack_push { s with interrupts_enabled := false, reg := (s.reg.set 6 0).set 7 (sp - 4), ram := (((s.ram.set (sp - 1).toNat s.pc).set (sp - 2).toNat s.fl).set (sp - 3).toNat (s.reg.getD 0 0)).set (sp - 4).toNat (s.reg.getD 1 0) } (s.reg.getD 2 0) = .ok { s with interrupts_enabled := false, reg := (s.reg.set 6 0).set 7 (sp - 5), ram := ((((s.ram.set (sp - 1).toNat s.pc).set (sp - 2).toNat s.fl).set (sp - 3).toNat (s.reg.getD 0 0)).set (sp - 4).toNat (s.reg.getD 1 0)).set (sp - 5).toNat (s.reg.getD 2 0) } := by
    have := stack_push_ok { s with interrupts_enabled := false, reg := (s.reg.set 6 0).set 7 (sp - 4), ram := (((s.ram.set (sp - 1).toNat s.pc).set (sp - 2).toNat s.fl).set (sp - 3).toNat (s.reg.getD 0 0)).set (sp - 4).toNat (s.reg.getD 1 0) } (s.reg.getD 2 0) (sp - 4) (by simp only [List.length_set]; simpa using hreg) (by simpa using getD_set_self (s.reg.set 6 0) 7 (sp - 4) 0 (by rw [hlenR]; omega)) (by omega) (by simp only [List.length_set]; rw [hram]; omega)
    rw [List.set_set] at this
    have harith : sp - 4 - 1 = sp - 5 := by ring
    rw [harith] at this
    simpa using this
  have hp6 : stack_push { s with interrupts_enabled := false, reg := (s.reg.set 6 0).set 7 (sp - 5), ram := ((((s.ram.set (sp - 1).toNat s.pc).set (sp - 2).toNat s.fl).set (sp - 3).toNat (s.reg.getD 0 0)).set (sp - 4).toNat (s.reg.getD 1 0)).set (sp - 5).toNat (s.reg.getD 2 0) } (s.reg.getD 3 0) = .ok { s with interrupts_enabled := false, reg := (s.reg.set 6 0).set 7 (sp - 6), ram := (((((s.ram.set (sp - 1).toNat s.pc).set (sp - 2).toNat s.fl).set (sp - 3).toNat (s.reg.getD 0 0)).set (sp - 4).toNat (s.reg.getD 1 0)).set (sp - 5).toNat (s.reg.getD 2 0)).set (sp - 6).toNat (s.reg.getD 3 0) } := by
    have := stack_push_ok { s with interrupts_enabled := false, reg := (s.reg.set 6 0).set 7 (sp - 5), ram := ((((s.ram.set (sp - 1).toNat s.pc).set (sp - 2).toNat s.fl).set (sp - 3).toNat (s.reg.getD 0 0)).set (sp - 4).toNat (s.reg.getD 1 0)).set (sp - 5).toNat (s.reg.getD 2 0) } (s.reg.getD 3 0) (sp - 5) (by simp only [List.length_set]; simpa using hreg) (by simpa using getD_set_self (s.reg.set 6 0) 7 (sp - 5) 0 (by rw [hlenR]; omega)) (by omega) (by simp only [List.length_set]; rw [hram]; omega)
    rw [List.set_set] at this
    have harith : sp - 5 - 1 = sp - 6 := by ring
    rw [harith] at this
    simpa using this
  have hp7 : stack_push { s with interrupts_enabled := false, reg := (s.reg.set 6 0).set 7 (sp - 6), ram := (((((s.ram.set (sp - 1).toNat s.pc).set (sp - 2).toNat s.fl).set (sp - 3).toNat (s.reg.getD 0 0)).set (sp - 4).toNat (s.reg.getD 1 0)).set (sp - 5).toNat (s.reg.getD 2 0)).set (sp - 6).toNat (s.reg.getD 3 0) } (s.reg.getD 4 0) = .ok { s with interrupts_enabled := false, reg := (s.reg.set 6 0).set 7 (sp - 7), ram := ((((((s.ram.set (sp - 1).toNat s.pc).set (sp - 2).toNat s.fl).set (sp - 3).toNat (s.reg.getD 0 0)).set (sp - 4).toNat (s.reg.getD 1 0)).set (sp - 5).toNat (s.reg.getD 2 0)).set (sp - 6).toNat (s.reg.getD 3 0)).set (sp - 7).toNat (s.reg.getD 4 0) } := by
    have := stack_push_ok { s with interrupts_enabled := false, reg := (s.reg.set 6 0).set 7 (sp - 6), ram := (((((s.ram.set (sp - 1).toNat s.pc).set (sp - 2).toNat s.fl).set (sp - 3).toNat (s.reg.getD 0 0)).set (sp - 4).toNat (s.reg.getD 1 0)).set (sp - 5).toNat (s.reg.getD 2 0)).set (sp - 6).toNat (s.reg.getD 3 0) } (s.reg.getD 4 0) (sp - 6) (by simp only [List.length_set]; simpa using hreg) (by simpa using getD_set_self (s.reg.set 6 0) 7 (sp - 6) 0 (by rw [hlenR]; omega)) (by omega) (by simp only [List.length_set]; rw [hram]; omega)
    rw [List.set_set] at this
    have harith : sp - 6 - 1 = sp - 7 := by ring
    rw [harith] at this
    simpa using this
  have hp8 : stack_push { s with interrupts_enabled := false, reg := (s.reg.set 6 0).set 7 (sp - 7), ram := ((((((s.ram.set (sp - 1).toNat s.pc).set (sp - 2).toNat s.fl).set (sp - 3).toNat (s.reg.getD 0 0)).set (sp - 4).toNat (s.reg.getD 1 0)).set (sp - 5).toNat (s.reg.getD 2 0)).set (sp - 6).toNat (s.reg.getD 3 0)).set (sp - 7).toNat (s.reg.getD 4 0) } (s.reg.getD 5 0) = .ok { s with interrupts_enabled := false, reg := (s.reg.set 6 0).set 7 (sp - 8), ram := (((((((s.ram.set (sp - 1).toNat s.pc).set (sp - 2).toNat s.fl).set (sp - 3).toNat (s.reg.getD 0 0)).set (sp - 4).toNat (s.reg.getD 1 0)).set (sp - 5).toNat (s.reg.getD 2 0)).set (sp - 6).toNat (s.reg.getD 3 0)).set (sp - 7).toNat (s.reg.getD 4 0)).set (sp - 8).toNat (s.reg.getD 5 0) } := by
    have := stack_push_ok { s with interrupts_enabled := false, reg := (s.reg.set 6 0).set 7 (sp - 7), ram := ((((((s.ram.set (sp - 1).toNat s.pc).set (sp - 2).toNat s.fl).set (sp - 3).toNat (s.reg.getD 0 0)).set (sp - 4).toNat (s.reg.getD 1 0)).set (sp - 5).toNat (s.reg.getD 2 0)).set (sp - 6).toNat (s.reg.getD 3 0)).set (sp - 7).toNat (s.reg.getD 4 0) } (s.reg.getD 5 0) (sp - 7) (by simp only [List.length_set]; simpa using hreg) (by simpa using getD_set_self (s.reg.set 6 0) 7 (sp - 7) 0 (by rw [hlenR]; omega)) (by omega) (by simp only [List.length_set]; rw [hram]; omega)
    rw [List.set_set] at this
    have harith : sp - 7 - 1 = sp - 8 := by ring
    rw [harith] at this
    simpa using this
  have hp9 : stack_push { s with interrupts_enabled := false, reg := (s.reg.set 6 0).set 7 (sp - 8), ram := (((((((s.ram.set (sp - 1).toNat s.pc).set (sp - 2).toNat s.fl).set (sp - 3).toNat (s.reg.getD 0 0)).set (sp - 4).toNat (s.reg.getD 1 0)).set (sp - 5).toNat (s.reg.getD 2 0)).set (sp - 6).toNat (s.reg.getD 3 0)).set (sp - 7).toNat (s.reg.getD 4 0)).set (sp - 8).toNat (s.reg.getD 5 0) } 0 = .ok { s with interrupts_enabled := false, reg := (s.reg.set 6 0).set 7 (sp - 9), ram := ((((((((s.ram.set (sp - 1).toNat s.pc).set (sp - 2).toNat s.fl).set (sp - 3).toNat (s.reg.getD 0 0)).set (sp - 4).toNat (s.reg.getD 1 0)).set (sp - 5).toNat (s.reg.getD 2 0)).set (sp - 6).toNat (s.reg.getD 3 0)).set (sp - 7).toNat (s.reg.getD 4 0)).set (sp - 8).toNat (s.reg.getD 5 0)).set (sp - 9).toNat 0 } := by
    have := stack_push_ok { s with interrupts_enabled := false, reg := (s.reg.set 6 0).set 7 (sp - 8), ram := (((((((s.ram.set (sp - 1).toNat s.pc).set (sp - 2).toNat s.fl).set (sp - 3).toNat (s.reg.getD 0 0)).set (sp - 4).toNat (s.reg.getD 1 0)).set (sp - 5).toNat (s.reg.getD 2 0)).set (sp - 6).toNat (s.reg.getD 3 0)).set (sp - 7).toNat (s.reg.getD 4 0)).set (sp - 8).toNat (s.reg.getD 5 0) } 0 (sp - 8) (by simp only [List.length_set]; simpa using hreg) (by simpa using getD_set_self (s.reg.set 6 0) 7 (sp - 8) 0 (by rw [hlenR]; omega)) (by omega) (by simp only [List.length_set]; rw [hram]; omega)
    rw [List.set_set] at this
    have harith : sp - 8 - 1 = sp - 9 := by ring
    rw [harith] at this
    simpa using this
  have hg0 : pyGet ((s.reg.set 6 0).set 7 (sp - 2)) 0 = .ok (s.reg.getD 0 0) := by
    have := pyGet_nonneg ((s.reg.set 6 0).set 7 (sp - 2)) 0 (by decide) (by simp only [List.length_set]; rw [hreg]; decide)
    rw [show ((0 : Int).toNat) = 0 from rfl] at this
    rw [getD_set_other _ 7 0 _ 0 (by decide), getD_set_other _ 6 0 _ 0 (by decide)] at this
    simpa using this
  have hg1 : pyGet ((s.reg.set 6 0).set 7 (sp - 3)) 1 = .ok (s.reg.getD 1 0) := by
    have := pyGet_nonneg ((s.reg.set 6 0).set 7 (sp - 3)) 1 (by decide) (by simp only [List.length_set]; rw [hreg]; decide)
    rw [show ((1 : Int).toNat) = 1 from rfl] at this
    rw [getD_set_other _ 7 1 _ 0 (by decide), getD_set_other _ 6 1 _ 0 (by decide)] at this
    simpa using this
  have hg2 : pyGet ((s.reg.set 6 0).set 7 (sp - 4)) 2 = .ok (s.reg.getD 2 0) := by
    have := pyGet_nonneg ((s.reg.set 6 0).set 7 (sp - 4)) 2 (by decide) (by simp only [List.length_set]; rw [hreg]; decide)
    rw [show ((2 : Int).toNat) = 2 from rfl] at this
    rw [getD_set_other _ 7 2 _ 0 (by decide), getD_set_other _ 6 2 _ 0 (by decide)] at this
    simpa using this
  have hg3 : pyGet ((s.reg.set 6 0).set 7 (sp - 5)) 3 = .ok (s.reg.getD 3 0) := by
    have := pyGet_nonneg ((s.reg.set 6 0).set 7 (sp - 5)) 3 (by decide) (by simp only [List.length_set]; rw [hreg]; decide)
    rw [show ((3 : Int).toNat) = 3 from rfl] at this
    rw [getD_set_other _ 7 3 _ 0 (by decide), getD_set_other _ 6 3 _ 0 (by decide)] at this
    simpa using this
  have hg4 : pyGet ((s.reg.set 6 0).set 7 (sp - 6)) 4 = .ok (s.reg.getD 4 0) := by
    have := pyGet_nonneg ((s.reg.set 6 0).set 7 (sp - 6)) 4 (by decide) (by simp only [List.length_set]; rw [hreg]; decide)
    rw [show ((4 : Int).toNat) = 4 from rfl] at this
    rw [getD_set_other _ 7 4 _ 0 (by decide), getD_set_other _ 6 4 _ 0 (by decide)] at this
    simpa using this
  have hg5 : pyGet ((s.reg.set 6 0).set 7 (sp - 7)) 5 = .ok (s.reg.getD 5 0) := by
    have := pyGet_nonneg ((s.reg.set 6 0).set 7 (sp - 7)) 5 (by decide) (by simp only [List.length_set]; rw [hreg]; decide)
    rw [show ((5 : Int).toNat) = 5 from rfl] at this
    rw [getD_set_other _ 7 5 _ 0 (by decide), getD_set_other _ 6 5 _ 0 (by decide)] at this
    simpa using this
  have hg6 : pyGet ((s.reg.set 6 0).set 7 (sp - 8)) 6 = .ok 0 := by
    have := pyGet_nonneg ((s.reg.set 6 0).set 7 (sp - 8)) 6 (by decide) (by simp only [List.length_set]; rw [hreg]; decide)
    rw [show ((6 : Int).toNat) = 6 from rfl] at this
    rw [getD_set_other _ 7 6 _ 0 (by decide), getD_set_self s.reg 6 0 0 (by rw [hreg]; decide)] at this
    simpa using this
  have hvec : ram_read (((((((((s.ram.set (sp - 1).toNat s.pc).set (sp - 2).toNat s.fl).set (sp - 3).toNat (s.reg.getD 0 0)).set (sp - 4).toNat (s.reg.getD 1 0)).set (sp - 5).toNat (s.reg.getD 2 0)).set (sp - 6).toNat (s.reg.getD 3 0)).set (sp - 7).toNat (s.reg.getD 4 0)).set (sp - 8).toNat (s.reg.getD 5 0)).set (sp - 9).toNat 0) (248 + (i : Int)) = .ok (s.ram.getD (248 + i) 0) := by
    rw [ram_read_ok _ _ (by omega) (by simp only [List.length_set]; rw [hram]; omega)]
    rw [getD_set_other _ _ _ _ 0 (by omega)]
    rw [getD_set_other _ _ _ _ 0 (by omega)]
    rw [getD_set_other _ _ _ _ 0 (by omega)]
    rw [getD_set_other _ _ _ _ 0 (by omega)]
    rw [getD_set_other _ _ _ _ 0 (by omega)]
    rw [getD_set_other _ _ _ _ 0 (by omega)]
    rw [getD_set_other _ _ _ _ 0 (by omega)]
    rw [getD_set_other _ _ _ _ 0 (by omega)]
    rw [getD_set_other _ _ _ _ 0 (by omega)]
    have harel : ((248 : Int) + (i : Int)).toNat = 248 + i := by omega
    rw [harel]
  simp only [doTrap, pushRegsAux, hclr, ok_bind, Nat.cast_ofNat, Nat.cast_zero,
    Nat.cast_one, Nat.reduceAdd, hp1, hp2, hp3, hp4, hp5, hp6, hp7, hp8, hp9,
    hg0, hg1, hg2, hg3, hg4, hg5, hg6, hvec, Functor.map, Except.map]
  rfl

/-- A pending interrupt with `IM = 0xFF` makes one interrupt-controller pass
trap: the characterization of `interruptCheck` used by several claims. -/
theorem interruptCheck_trap (s : CPUState) (sp : Int) (m i : Nat)
    (hen : s.interrupts_enabled = true)
    (hreg : s.reg.length = 8) (hram : s.ram.length = 256)
    (him : s.reg.getD 5 0 = 255)
    (hm : s.reg.getD 6 0 = (m : Int)) (hm256 : m < 256)
    (hbit : m.testBit i = true) (hlow : ∀ j < i, m.testBit j = false)
    (hsp : s.reg.getD 7 0 = sp) (h9 : 9 ≤ sp) (h248 : sp ≤ 248) :
    interruptCheck s = .ok { s with
      interrupts_enabled := false,
      reg := (s.reg.set 6 0).set 7 (sp - 9),
      ram := ((((((((s.ram.set (sp - 1).toNat s.pc).set (sp - 2).toNat s.fl).set (sp - 3).toNat (s.reg.getD 0 0)).set (sp - 4).toNat (s.reg.getD 1 0)).set (sp - 5).toNat (s.reg.getD 2 0)).set (sp - 6).toNat (s.reg.getD 3 0)).set (sp - 7).toNat (s.reg.getD 4 0)).set (sp - 8).toNat (s.reg.getD 5 0)).set (sp - 9).toNat 0,
      pc := s.ram.getD (248 + i) 0 } := by
  have hi : i < 8 := by
    by_contra hge
    have : m < 2 ^ i := lt_of_lt_of_le hm256 (by
      calc (256 : Nat) = 2 ^ 8 := by norm_num
        _ ≤ 2 ^ i := Nat.pow_le_pow_right (by norm_num) (by omega))
    rw [Nat.testBit_lt_two_pow this] at hbit
    exact Bool.false_ne_true hbit
  have h5 : pyGet s.reg 5 = .ok 255 := by
    have := pyGet_nonneg s.reg 5 (by decide) (by rw [hreg]; decide)
    rw [show ((5 : Int).toNat) = 5 from rfl, him] at this
    exact this
  have h6 : pyGet s.reg 6 = .ok ((m : Nat) : Int) := by
    have := pyGet_nonneg s.reg 6 (by decide) (by rw [hreg]; decide)
    rw [show ((6 : Int).toNat) = 6 from rfl, hm] at this
    exact this
  have hmask : Int.land 255 ((m : Nat) : Int) = ((m : Nat) : Int) := by
    have h255 : Int.land 255 ((m : Nat) : Int) = ((255 &&& m : Nat) : Int) := rfl
    rw [h255, land_255 m hm256]
  unfold interruptCheck
  rw [hen]
  simp only [h5, ok_bind, h6, ok_bind, if_true]
  rw [hmask, findPending_spec m i hi hbit hlow]
  exact doTrap_ok s sp i hreg hram hsp h9 h248 hi

/-! ### C5: the interrupt trap -/

/-- C5: for every state with interrupts enabled, IM = 0xFF, IS a byte whose
lowest set bit is `i`, and the stack in bounds (9 ≤ SP ≤ 248), one
interrupt-controller pass traps: PC becomes the byte stored at `248 + i`,
IS becomes 0, the enabled flag is cleared, and the stack is extended by
exactly nine pushes in the order pre-trap PC, FL, then registers 0..6 at
their values at push time (register 6 having just been cleared to 0;
register 7 is not pushed, and SP drops by 9). -/
theorem interrupt_trap_spec (s : CPUState) (sp : Int) (m i : Nat)
    (hen : s.interrupts_enabled = true)
    (hreg : s.reg.length = 8) (hram : s.ram.length = 256)
    (him : s.reg.getD 5 0 = 255)
    (hm : s.reg.getD 6 0 = (m : Int)) (hm256 : m < 256)
    (hbit : m.testBit i = true) (hlow : ∀ j < i, m.testBit j = false)
    (hsp : s.reg.getD 7 0 = sp) (h9 : 9 ≤ sp) (h248 : sp ≤ 248) :
    interruptCheck s = .ok { s with
      interrupts_enabled := false,
      reg := (s.reg.set 6 0).set 7 (sp - 9),
      ram := ((((((((s.ram.set (sp - 1).toNat s.pc).set (sp - 2).toNat s.fl).set (sp - 3).toNat (s.reg.getD 0 0)).set (sp - 4).toNat (s.reg.getD 1 0)).set (sp - 5).toNat (s.reg.getD 2 0)).set (sp - 6).toNat (s.reg.getD 3 0)).set (sp - 7).toNat (s.reg.getD 4 0)).set (sp - 8).toNat (s.reg.getD 5 0)).set (sp - 9).toNat 0,
      pc := s.ram.getD (248 + i) 0 } :=
  interruptCheck_trap s sp m i hen hreg hram him hm hm256 hbit hlow hsp h9 h248

set_option maxHeartbeats 2000000 in
/-- Evaluation of IRET on the state produced by an interrupt trap: the nine
pops restore PC, FL and registers 5..0 from the frame, restore register 6 to
the cleared value 0, re-enable interrupts, and skip the generic advance. -/
theorem trap_iret_eval (s : CPUState) (sp : Int) (i : Nat) (v : Int)
    (hreg : s.reg.length = 8) (hram : s.ram.length = 256)
    (hsp : s.reg.getD 7 0 = sp) (h9 : 9 ≤ sp) (h248 : sp ≤ 248)
    (hv : s.ram.getD (248 + i) 0 = v) (hv0 : 0 ≤ v) (hv256 : v < 256)
    (hvdisj : v < sp - 9 ∨ sp ≤ v)
    (hinstr : s.ram.getD v.toNat 0 = 19) :
    execInstr { s with interrupts_enabled := false, reg := ((s.reg.set 6 0).set 7 (sp - 9)), ram := (((((((((s.ram.set (sp - 1).toNat s.pc).set (sp - 2).toNat s.fl).set (sp - 3).toNat (s.reg.getD 0 0)).set (sp - 4).toNat (s.reg.getD 1 0)).set (sp - 5).toNat (s.reg.getD 2 0)).set (sp - 6).toNat (s.reg.getD 3 0)).set (sp - 7).toNat (s.reg.getD 4 0)).set (sp - 8).toNat (s.reg.getD 5 0)).set (sp - 9).toNat 0), pc := s.ram.getD (248 + i) 0 } = .ok { state := { pc := s.pc, ir := 19, mar := s.mar, mdr := s.mdr, fl := s.fl, ram := (((((((((s.ram.set (sp - 1).toNat s.pc).set (sp - 2).toNat s.fl).set (sp - 3).toNat (s.reg.getD 0 0)).set (sp - 4).toNat (s.reg.getD 1 0)).set (sp - 5).toNat (s.reg.getD 2 0)).set (sp - 6).toNat (s.reg.getD 3 0)).set (sp - 7).toNat (s.reg.getD 4 0)).set (sp - 8).toNat (s.reg.getD 5 0)).set (sp - 9).toNat 0), reg := ((((((((((((((((s.reg.set 6 0).set 7 (sp - 8)).set 6 0).set 7 (sp - 7)).set 5 (s.reg.getD 5 0)).set 7 (sp - 6)).set 4 (s.reg.getD 4 0)).set 7 (sp - 5)).set 3 (s.reg.getD 3 0)).set 7 (sp - 4)).set 2 (s.reg.getD 2 0)).set 7 (sp - 3)).set 1 (s.reg.getD 1 0)).set 7 (sp - 2)).set 0 (s.reg.getD 0 0)).set 7 sp), interrupts_enabled := true }, output := [], running := true, jumped := true } := by
  have hva0 : ((((((((((s.ram.set (sp - 1).toNat s.pc).set (sp - 2).toNat s.fl).set (sp - 3).toNat (s.reg.getD 0 0)).set (sp - 4).toNat (s.reg.getD 1 0)).set (sp - 5).toNat (s.reg.getD 2 0)).set (sp - 6).toNat (s.reg.getD 3 0)).set (sp - 7).toNat (s.reg.getD 4 0)).set (sp - 8).toNat (s.reg.getD 5 0)).set (sp - 9).toNat 0)).getD ((sp - 9).toNat) 0 = 0 := by
    exact getD_set_self _ _ _ _ (by (try simp only [List.length_set]); omega)
  have hva1 : ((((((((((s.ram.set (sp - 1).toNat s.pc).set (sp - 2).toNat s.fl).set (sp - 3).toNat (s.reg.getD 0 0)).set (sp - 4).toNat (s.reg.getD 1 0)).set (sp - 5).toNat (s.reg.getD 2 0)).set (sp - 6).toNat (s.reg.getD 3 0)).set (sp - 7).toNat (s.reg.getD 4 0)).set (sp - 8).toNat (s.reg.getD 5 0)).set (sp - 9).toNat 0)).getD ((sp - 8).toNat) 0 = (s.reg.getD 5 0) := by
    rw [getD_set_other _ _ _ _ 0 (by omega)]
    exact getD_set_self _ _ _ _ (by (try simp only [List.length_set]); omega)
  have hva2 : ((((((((((s.ram.set (sp - 1).toNat s.pc).set (sp - 2).toNat s.fl).set (sp - 3).toNat (s.reg.getD 0 0)).set (sp - 4).toNat (s.reg.getD 1 0)).set (sp - 5).toNat (s.reg.getD 2 0)).set (sp - 6).toNat (s.reg.getD 3 0)).set (sp - 7).toNat (s.reg.getD 4 0)).set (sp - 8).toNat (s.reg.getD 5 0)).set (sp - 9).toNat 0)).getD ((sp - 7).toNat) 0 = (s.reg.getD 4 0) := by
    rw [getD_set_other _ _ _ _ 0 (by omega)]
    rw [getD_set_other _ _ _ _ 0 (by omega)]
    exact getD_set_self _ _ _ _ (by (try simp only [List.length_set]); omega)
  have hva3 : ((((((((((s.ram.set (sp - 1).toNat s.pc).set (sp - 2).toNat s.fl).set (sp - 3).toNat (s.reg.getD 0 0)).set (sp - 4).toNat (s.reg.getD 1 0)).set (sp - 5).toNat (s.reg.getD 2 0)).set (sp - 6).toNat (s.reg.getD 3 0)).set (sp - 7).toNat (s.reg.getD 4 0)).set (sp - 8).toNat (s.reg.getD 5 0)).set (sp - 9).toNat 0)).getD ((sp - 6).toNat) 0 = (s.reg.getD 3 0) := by
    rw [getD_set_other _ _ _ _ 0 (by omega)]
    rw [getD_set_other _ _ _ _ 0 (by omega)]
    rw [getD_set_other _ _ _ _ 0 (by omega)]
    exact getD_set_self _ _ _ _ (by (try simp only [List.length_set]); omega)
  have hva4 : ((((((((((s.ram.set (sp - 1).toNat s.pc).set (sp - 2).toNat s.fl).set (sp - 3).toNat (s.reg.getD 0 0)).set (sp - 4).toNat (s.reg.getD 1 0)).set (sp - 5).toNat (s.reg.getD 2 0)).set (sp - 6).toNat (s.reg.getD 3 0)).set (sp - 7).toNat (s.reg.getD 4 0)).set (sp - 8).toNat (s.reg.getD 5 0)).set (sp - 9).toNat 0)).getD ((sp - 5).toNat) 0 = (s.reg.getD 2 0) := by
    rw [getD_set_other _ _ _ _ 0 (by omega)]
    rw [getD_set_other _ _ _ _ 0 (by omega)]
    rw [getD_set_other _ _ _ _ 0 (by omega)]
    rw [getD_set_other _ _ _ _ 0 (by omega)]
    exact getD_set_self _ _ _ _ (by (try simp only [List.length_set]); omega)
  have hva5 : ((((((((((s.ram.set (sp - 1).toNat s.pc).set (sp - 2).toNat s.fl).set (sp - 3).toNat (s.reg.getD 0 0)).set (sp - 4).toNat (s.reg.getD 1 0)).set (sp - 5).toNat (s.reg.getD 2 0)).set (sp - 6).toNat (s.reg.getD 3 0)).set (sp - 7).toNat (s.reg.getD 4 0)).set (sp - 8).toNat (s.reg.getD 5 0)).set (sp - 9).toNat 0)).getD ((sp - 4).toNat) 0 = (s.reg.getD 1 0) := by
    rw [getD_set_other _ _ _ _ 0 (by omega)]
    rw [getD_set_other _ _ _ _ 0 (by omega)]
    rw [getD_set_other _ _ _ _ 0 (by omega)]
    rw [getD_set_other _ _ _ _ 0 (by omega)]
    rw [getD_set_other _ _ _ _ 0 (by omega)]
    exact getD_set_self _ _ _ _ (by (try simp only [List.length_set]); omega)
  have hva6 : ((((((((((s.ram.set (sp - 1).toNat s.pc).set (sp - 2).toNat s.fl).set (sp - 3).toNat (s.reg.getD 0 0)).set (sp - 4).toNat (s.reg.getD 1 0)).set (sp - 5).toNat (s.reg.getD 2 0)).set (sp - 6).toNat (s.reg.getD 3 0)).set (sp - 7).toNat (s.reg.getD 4 0)).set (sp - 8).toNat (s.reg.getD 5 0)).set (sp - 9).toNat 0)).getD ((sp - 3).toNat) 0 = (s.reg.getD 0 0) := by
    rw [getD_set_other _ _ _ _ 0 (by omega)]
    rw [getD_set_other _ _ _ _ 0 (by omega)]
    rw [getD_set_other _ _ _ _ 0 (by omega)]
    rw [getD_set_other _ _ _ _ 0 (by omega)]
    rw [getD_set_other _ _ _ _ 0 (by omega)]
    rw [getD_set_other _ _ _ _ 0 (by omega)]
    exact getD_set_self _ _ _ _ (by (try simp only [List.length_set]); omega)
  have hva7 : ((((((((((s.ram.set (sp - 1).toNat s.pc).set (sp - 2).toNat s.fl).set (sp - 3).toNat (s.reg.getD 0 0)).set (sp - 4).toNat (s.reg.getD 1 0)).set (sp - 5).toNat (s.reg.getD 2 0)).set (sp - 6).toNat (s.reg.getD 3 0)).set (sp - 7).toNat (s.reg.getD 4 0)).set (sp - 8).toNat (s.reg.getD 5 0)).set (sp - 9).toNat 0)).getD ((sp - 2).toNat) 0 = s.fl := by
    rw [getD_set_other _ _ _ _ 0 (by omega)]
    rw [getD_set_other _ _ _ _ 0 (by omega)]
    rw [getD_set_other _ _ _ _ 0 (by omega)]
    rw [getD_set_other _ _ _ _ 0 (by omega)]
    rw [getD_set_other _ _ _ _ 0 (by omega)]
    rw [getD_set_other _ _ _ _ 0 (by omega)]
    rw [getD_set_other _ _ _ _ 0 (by omega)]
    exact getD_set_self _ _ _ _ (by (try simp only [List.length_set]); omega)
  have hva8 : ((((((((((s.ram.set (sp - 1).toNat s.pc).set (sp - 2).toNat s.fl).set (sp - 3).toNat (s.reg.getD 0 0)).set (sp - 4).toNat (s.reg.getD 1 0)).set (sp - 5).toNat (s.reg.getD 2 0)).set (sp - 6).toNat (s.reg.getD 3 0)).set (sp - 7).toNat (s.reg.getD 4 0)).set (sp - 8).toNat (s.reg.getD 5 0)).set (sp - 9).toNat 0)).getD ((sp - 1).toNat) 0 = s.pc := by
    rw [getD_set_other _ _ _ _ 0 (by omega)]
    rw [getD_set_other _ _ _ _ 0 (by omega)]
    rw [getD_set_other _ _ _ _ 0 (by omega)]
    rw [getD_set_other _ _ _ _ 0 (by omega)]
    rw [getD_set_other _ _ _ _ 0 (by omega)]
    rw [getD_set_other _ _ _ _ 0 (by omega)]
    rw [getD_set_other _ _ _ _ 0 (by omega)]
    rw [getD_set_other _ _ _ _ 0 (by omega)]
    exact getD_set_self _ _ _ _ (by (try simp only [List.length_set]); omega)
  have hlenM : ((((((((((s.ram.set (sp - 1).toNat s.pc).set (sp - 2).toNat s.fl).set (sp - 3).toNat (s.reg.getD 0 0)).set (sp - 4).toNat (s.reg.getD 1 0)).set (sp - 5).toNat (s.reg.getD 2 0)).set (sp - 6).toNat (s.reg.getD 3 0)).set (sp - 7).toNat (s.reg.getD 4 0)).set (sp - 8).toNat (s.reg.getD 5 0)).set (sp - 9).toNat 0)).length = 256 := by simp only [List.length_set]; exact hram
  have hfetch : ram_read ((((((((((s.ram.set (sp - 1).toNat s.pc).set (sp - 2).toNat s.fl).set (sp - 3).toNat (s.reg.getD 0 0)).set (sp - 4).toNat (s.reg.getD 1 0)).set (sp - 5).toNat (s.reg.getD 2 0)).set (sp - 6).toNat (s.reg.getD 3 0)).set (sp - 7).toNat (s.reg.getD 4 0)).set (sp - 8).toNat (s.reg.getD 5 0)).set (sp - 9).toNat 0)) (s.ram.getD (248 + i) 0) = .ok 19 := by
    rw [hv, ram_read_ok _ _ hv0 (by rw [hlenM]; exact_mod_cast hv256)]
    rw [getD_set_other _ _ _ _ 0 (by rcases hvdisj with hd | hd <;> omega)]
    rw [getD_set_other _ _ _ _ 0 (by rcases hvdisj with hd | hd <;> omega)]
    rw [getD_set_other _ _ _ _ 0 (by rcases hvdisj with hd | hd <;> omega)]
    rw [getD_set_other _ _ _ _ 0 (by rcases hvdisj with hd | hd <;> omega)]
    rw [getD_set_other _ _ _ _ 0 (by rcases hvdisj with hd | hd <;> omega)]
    rw [getD_set_other _ _ _ _ 0 (by rcases hvdisj with hd | hd <;> omega)]
    rw [getD_set_other _ _ _ _ 0 (by rcases hvdisj with hd | hd <;> omega)]
    rw [getD_set_other _ _ _ _ 0 (by rcases hvdisj with hd | hd <;> omega)]
    rw [getD_set_other _ _ _ _ 0 (by rcases hvdisj with hd | hd <;> omega)]
    rw [hinstr]
  have hq1a : stack_pop { pc := s.ram.getD (248 + i) 0, ir := 19, mar := s.mar, mdr := s.mdr, fl := s.fl, ram := (((((((((s.ram.set (sp - 1).toNat s.pc).set (sp - 2).toNat s.fl).set (sp - 3).toNat (s.reg.getD 0 0)).set (sp - 4).toNat (s.reg.getD 1 0)).set (sp - 5).toNat (s.reg.getD 2 0)).set (sp - 6).toNat (s.reg.getD 3 0)).set (sp - 7).toNat (s.reg.getD 4 0)).set (sp - 8).toNat (s.reg.getD 5 0)).set (sp - 9).toNat 0), reg := ((s.reg.set 6 0).set 7 (sp - 9)), interrupts_enabled := false } = .ok ({ pc := s.ram.getD (248 + i) 0, ir := 19, mar := s.mar, mdr := s.mdr, fl := s.fl, ram := (((((((((s.ram.set (sp - 1).toNat s.pc).set (sp - 2).toNat s.fl).set (sp - 3).toNat (s.reg.getD 0 0)).set (sp - 4).toNat (s.reg.getD 1 0)).set (sp - 5).toNat (s.reg.getD 2 0)).set (sp - 6).toNat (s.reg.getD 3 0)).set (sp - 7).toNat (s.reg.getD 4 0)).set (sp - 8).toNat (s.reg.getD 5 0)).set (sp - 9).toNat 0), reg := ((s.reg.set 6 0).set 7 (sp - 8)), interrupts_enabled := false }, 0) := by
    have := stack_pop_ok { pc := s.ram.getD (248 + i) 0, ir := 19, mar := s.mar, mdr := s.mdr, fl := s.fl, ram := (((((((((s.ram.set (sp - 1).toNat s.pc).set (sp - 2).toNat s.fl).set (sp - 3).toNat (s.reg.getD 0 0)).set (sp - 4).toNat (s.reg.getD 1 0)).set (sp - 5).toNat (s.reg.getD 2 0)).set (sp - 6).toNat (s.reg.getD 3 0)).set (sp - 7).toNat (s.reg.getD 4 0)).set (sp - 8).toNat (s.reg.getD 5 0)).set (sp - 9).toNat 0), reg := ((s.reg.set 6 0).set 7 (sp - 9)), interrupts_enabled := false } (sp - 9) (by simpa using hreg) ?hsp1 (by omega) (by (try simp only [List.length_set]); omega)
    case hsp1 =>
      exact getD_set_self _ _ _ _ (by (try simp only [List.length_set]); omega)
    rw [hva0] at this
    rw [show (sp - 9) + 1 = (sp - 8) from by ring] at this
    rw [List.set_set] at this
    exact this
  have hq1b : pySet ((s.reg.set 6 0).set 7 (sp - 8)) 6 0 = .ok (((s.reg.set 6 0).set 7 (sp - 8)).set 6 0) := by
    have := pySet_nonneg ((s.reg.set 6 0).set 7 (sp - 8)) 6 0 (by decide) (by (try simp only [List.length_set]); omega)
    rw [show ((6 : Int).toNat) = 6 from rfl] at this
    exact this
  have hq2a : stack_pop { pc := s.ram.getD (248 + i) 0, ir := 19, mar := s.mar, mdr := s.mdr, fl := s.fl, ram := (((((((((s.ram.set (sp - 1).toNat s.pc).set (sp - 2).toNat s.fl).set (sp - 3).toNat (s.reg.getD 0 0)).set (sp - 4).toNat (s.reg.getD 1 0)).set (sp - 5).toNat (s.reg.getD 2 0)).set (sp - 6).toNat (s.reg.getD 3 0)).set (sp - 7).toNat (s.reg.getD 4 0)).set (sp - 8).toNat (s.reg.getD 5 0)).set (sp - 9).toNat 0), reg := (((s.reg.set 6 0).set 7 (sp - 8)).set 6 0), interrupts_enabled := false } = .ok ({ pc := s.ram.getD (248 + i) 0, ir := 19, mar := s.mar, mdr := s.mdr, fl := s.fl, ram := (((((((((s.ram.set (sp - 1).toNat s.pc).set (sp - 2).toNat s.fl).set (sp - 3).toNat (s.reg.getD 0 0)).set (sp - 4).toNat (s.reg.getD 1 0)).set (sp - 5).toNat (s.reg.getD 2 0)).set (sp - 6).toNat (s.reg.getD 3 0)).set (sp - 7).toNat (s.reg.getD 4 0)).set (sp - 8).toNat (s.reg.getD 5 0)).set (sp - 9).toNat 0), reg := (((s.reg.set 6 0).set 7 (sp - 8)).set 6 0).set 7 (sp - 7), interrupts_enabled := false }, (s.reg.getD 5 0)) := by
    have := stack_pop_ok { pc := s.ram.getD (248 + i) 0, ir := 19, mar := s.mar, mdr := s.mdr, fl := s.fl, ram := (((((((((s.ram.set (sp - 1).toNat s.pc).set (sp - 2).toNat s.fl).set (sp - 3).toNat (s.reg.getD 0 0)).set (sp - 4).toNat (s.reg.getD 1 0)).set (sp - 5).toNat (s.reg.getD 2 0)).set (sp - 6).toNat (s.reg.getD 3 0)).set (sp - 7).toNat (s.reg.getD 4 0)).set (sp - 8).toNat (s.reg.getD 5 0)).set (sp - 9).toNat 0), reg := (((s.reg.set 6 0).set 7 (sp - 8)).set 6 0), interrupts_enabled := false } (sp - 8) (by simpa using hreg) ?hsp2 (by omega) (by (try simp only [List.length_set]); omega)
    case hsp2 =>
      rw [getD_set_other _ _ _ _ 0 (by decide)]
      exact getD_set_self _ _ _ _ (by (try simp only [List.length_set]); omega)
    rw [hva1] at this
    rw [show (sp - 8) + 1 = (sp - 7) from by ring] at this
    exact this
  have hq2b : pySet ((((s.reg.set 6 0).set 7 (sp - 8)).set 6 0).set 7 (sp - 7)) 5 (s.reg.getD 5 0) = .ok (((((s.reg.set 6 0).set 7 (sp - 8)).set 6 0).set 7 (sp - 7)).set 5 (s.reg.getD 5 0)) := by
    have := pySet_nonneg ((((s.reg.set 6 0).set 7 (sp - 8)).set 6 0).set 7 (sp - 7)) 5 (s.reg.getD 5 0) (by decide) (by (try simp only [List.length_set]); omega)
    rw [show ((5 : Int).toNat) = 5 from rfl] at this
    exact this
  have hq3a : stack_pop { pc := s.ram.getD (248 + i) 0, ir := 19, mar := s.mar, mdr := s.mdr, fl := s.fl, ram := (((((((((s.ram.set (sp - 1).toNat s.pc).set (sp - 2).toNat s.fl).set (sp - 3).toNat (s.reg.getD 0 0)).set (sp - 4).toNat (s.reg.getD 1 0)).set (sp - 5).toNat (s.reg.getD 2 0)).set (sp - 6).toNat (s.reg.getD 3 0)).set (sp - 7).toNat (s.reg.getD 4 0)).set (sp - 8).toNat (s.reg.getD 5 0)).set (sp - 9).toNat 0), reg := (((((s.reg.set 6 0).set 7 (sp - 8)).set 6 0).set 7 (sp - 7)).set 5 (s.reg.getD 5 0)), interrupts_enabled := false } = .ok ({ pc := s.ram.getD (248 + i) 0, ir := 19, mar := s.mar, mdr := s.mdr, fl := s.fl, ram := (((((((((s.ram.set (sp - 1).toNat s.pc).set (sp - 2).toNat s.fl).set (sp - 3).toNat (s.reg.getD 0 0)).set (sp - 4).toNat (s.reg.getD 1 0)).set (sp - 5).toNat (s.reg.getD 2 0)).set (sp - 6).toNat (s.reg.getD 3 0)).set (sp - 7).toNat (s.reg.getD 4 0)).set (sp - 8).toNat (s.reg.getD 5 0)).set (sp - 9).toNat 0), reg := (((((s.reg.set 6 0).set 7 (sp - 8)).set 6 0).set 7 (sp - 7)).set 5 (s.reg.getD 5 0)).set 7 (sp - 6), interrupts_enabled := false }, (s.reg.getD 4 0)) := by
    have := stack_pop_ok { pc := s.ram.getD (248 + i) 0, ir := 19, mar := s.mar, mdr := s.mdr, fl := s.fl, ram := (((((((((s.ram.set (sp - 1).toNat s.pc).set (sp - 2).toNat s.fl).set (sp - 3).toNat (s.reg.getD 0 0)).set (sp - 4).toNat (s.reg.getD 1 0)).set (sp - 5).toNat (s.reg.getD 2 0)).set (sp - 6).toNat (s.reg.getD 3 0)).set (sp - 7).toNat (s.reg.getD 4 0)).set (sp - 8).toNat (s.reg.getD 5 0)).set (sp - 9).toNat 0), reg := (((((s.reg.set 6 0).set 7 (sp - 8)).set 6 0).set 7 (sp - 7)).set 5 (s.reg.getD 5 0)), interrupts_enabled := false } (sp - 7) (by simpa using hreg) ?hsp3 (by omega) (by (try simp only [List.length_set]); omega)
    case hsp3 =>
      rw [getD_set_other _ _ _ _ 0 (by decide)]
      exact getD_set_self _ _ _ _ (by (try simp only [List.length_set]); omega)
    rw [hva2] at this
    rw [show (sp - 7) + 1 = (sp - 6) from by ring] at this
    exact this
  have hq3b : pySet ((((((s.reg.set 6 0).set 7 (sp - 8)).set 6 0).set 7 (sp - 7)).set 5 (s.reg.getD 5 0)).set 7 (sp - 6)) 4 (s.reg.getD 4 0) = .ok (((((((s.reg.set 6 0).set 7 (sp - 8)).set 6 0).set 7 (sp - 7)).set 5 (s.reg.getD 5 0)).set 7 (sp - 6)).set 4 (s.reg.getD 4 0)) := by
    have := pySet_nonneg ((((((s.reg.set 6 0).set 7 (sp - 8)).set 6 0).set 7 (sp - 7)).set 5 (s.reg.getD 5 0)).set 7 (sp - 6)) 4 (s.reg.getD 4 0) (by decide) (by (try simp only [List.length_set]); omega)
    rw [show ((4 : Int).toNat) = 4 from rfl] at this
    exact this
  have hq4a : stack_pop { pc := s.ram.getD (248 + i) 0, ir := 19, mar := s.mar, mdr := s.mdr, fl := s.fl, ram := (((((((((s.ram.set (sp - 1).toNat s.pc).set (sp - 2).toNat s.fl).set (sp - 3).toNat (s.reg.getD 0 0)).set (sp - 4).toNat (s.reg.getD 1 0)).set (sp - 5).toNat (s.reg.getD 2 0)).set (sp - 6).toNat (s.reg.getD 3 0)).set (sp - 7).toNat (s.reg.getD 4 0)).set (sp - 8).toNat (s.reg.getD 5 0)).set (sp - 9).toNat 0), reg := (((((((s.reg.set 6 0).set 7 (sp - 8)).set 6 0).set 7 (sp - 7)).set 5 (s.reg.getD 5 0)).set 7 (sp - 6)).set 4 (s.reg.getD 4 0)), interrupts_enabled := false } = .ok ({ pc := s.ram.getD (248 + i) 0, ir := 19, mar := s.mar, mdr := s.mdr, fl := s.fl, ram := (((((((((s.ram.set (sp - 1).toNat s.pc).set (sp - 2).toNat s.fl).set (sp - 3).toNat (s.reg.getD 0 0)).set (sp - 4).toNat (s.reg.getD 1 0)).set (sp - 5).toNat (s.reg.getD 2 0)).set (sp - 6).toNat (s.reg.getD 3 0)).set (sp - 7).toNat (s.reg.getD 4 0)).set (sp - 8).toNat (s.reg.getD 5 0)).set (sp - 9).toNat 0), reg := (((((((s.reg.set 6 0).set 7 (sp - 8)).set 6 0).set 7 (sp - 7)).set 5 (s.reg.getD 5 0)).set 7 (sp - 6)).set 4 (s.reg.getD 4 0)).set 7 (sp - 5), interrupts_enabled := false }, (s.reg.getD 3 0)) := by
    have := stack_pop_ok { pc := s.ram.getD (248 + i) 0, ir := 19, mar := s.mar, mdr := s.mdr, fl := s.fl, ram := (((((((((s.ram.set (sp - 1).toNat s.pc).set (sp - 2).toNat s.fl).set (sp - 3).toNat (s.reg.getD 0 0)).set (sp - 4).toNat (s.reg.getD 1 0)).set (sp - 5).toNat (s.reg.getD 2 0)).set (sp - 6).toNat (s.reg.getD 3 0)).set (sp - 7).toNat (s.reg.getD 4 0)).set (sp - 8).toNat (s.reg.getD 5 0)).set (sp - 9).toNat 0), reg := (((((((s.reg.set 6 0).set 7 (sp - 8)).set 6 0).set 7 (sp - 7)).set 5 (s.reg.getD 5 0)).set 7 (sp - 6)).set 4 (s.reg.getD 4 0)), interrupts_enabled := false } (sp - 6) (by simpa using hreg) ?hsp4 (by omega) (by (try simp only [List.length_set]); omega)
    case hsp4 =>
      rw [getD_set_other _ _ _ _ 0 (by decide)]
      exact getD_set_self _ _ _ _ (by (try simp only [List.length_set]); omega)
    rw [hva3] at this
    rw [show (sp - 6) + 1 = (sp - 5) from by ring] at this
    exact this
  have hq4b : pySet ((((((((s.reg.set 6 0).set 7 (sp - 8)).set 6 0).set 7 (sp - 7)).set 5 (s.reg.getD 5 0)).set 7 (sp - 6)).set 4 (s.reg.getD 4 0)).set 7 (sp - 5)) 3 (s.reg.getD 3 0) = .ok (((((((((s.reg.set 6 0).set 7 (sp - 8)).set 6 0).set 7 (sp - 7)).set 5 (s.reg.getD 5 0)).set 7 (sp - 6)).set 4 (s.reg.getD 4 0)).set 7 (sp - 5)).set 3 (s.reg.getD 3 0)) := by
    have := pySet_nonneg ((((((((s.reg.set 6 0).set 7 (sp - 8)).set 6 0).set 7 (sp - 7)).set 5 (s.reg.getD 5 0)).set 7 (sp - 6)).set 4 (s.reg.getD 4 0)).set 7 (sp - 5)) 3 (s.reg.getD 3 0) (by decide) (by (try simp only [List.length_set]); omega)
    rw [show ((3 : Int).toNat) = 3 from rfl] at this
    exact this
  have hq5a : stack_pop { pc := s.ram.getD (248 + i) 0, ir := 19, mar := s.mar, mdr := s.mdr, fl := s.fl, ram := (((((((((s.ram.set (sp - 1).toNat s.pc).set (sp - 2).toNat s.fl).set (sp - 3).toNat (s.reg.getD 0 0)).set (sp - 4).toNat (s.reg.getD 1 0)).set (sp - 5).toNat (s.reg.getD 2 0)).set (sp - 6).toNat (s.reg.getD 3 0)).set (sp - 7).toNat (s.reg.getD 4 0)).set (sp - 8).toNat (s.reg.getD 5 0)).set (sp - 9).toNat 0), reg := (((((((((s.reg.set 6 0).set 7 (sp - 8)).set 6 0).set 7 (sp - 7)).set 5 (s.reg.getD 5 0)).set 7 (sp - 6)).set 4 (s.reg.getD 4 0)).set 7 (sp - 5)).set 3 (s.reg.getD 3 0)), interrupts_enabled := false } = .ok ({ pc := s.ram.getD (248 + i) 0, ir := 19, mar := s.mar, mdr := s.mdr, fl := s.fl, ram := (((((((((s.ram.set (sp - 1).toNat s.pc).set (sp - 2).toNat s.fl).set (sp - 3).toNat (s.reg.getD 0 0)).set (sp - 4).toNat (s.reg.getD 1 0)).set (sp - 5).toNat (s.reg.getD 2 0)).set (sp - 6).toNat (s.reg.getD 3 0)).set (sp - 7).toNat (s.reg.getD 4 0)).set (sp - 8).toNat (s.reg.getD 5 0)).set (sp - 9).toNat 0), reg := (((((((((s.reg.set 6 0).set 7 (sp - 8)).set 6 0).set 7 (sp - 7)).set 5 (s.reg.getD 5 0)).set 7 (sp - 6)).set 4 (s.reg.getD 4 0)).set 7 (sp - 5)).set 3 (s.reg.getD 3 0)).set 7 (sp - 4), interrupts_enabled := false }, (s.reg.getD 2 0)) := by
    have := stack_pop_ok { pc := s.ram.getD (248 + i) 0, ir := 19, mar := s.mar, mdr := s.mdr, fl := s.fl, ram := (((((((((s.ram.set (sp - 1).toNat s.pc).set (sp - 2).toNat s.fl).set (sp - 3).toNat (s.reg.getD 0 0)).set (sp - 4).toNat (s.reg.getD 1 0)).set (sp - 5).toNat (s.reg.getD 2 0)).set (sp - 6).toNat (s.reg.getD 3 0)).set (sp - 7).toNat (s.reg.getD 4 0)).set (sp - 8).toNat (s.reg.getD 5 0)).set (sp - 9).toNat 0), reg := (((((((((s.reg.set 6 0).set 7 (sp - 8)).set 6 0).set 7 (sp - 7)).set 5 (s.reg.getD 5 0)).set 7 (sp - 6)).set 4 (s.reg.getD 4 0)).set 7 (sp - 5)).set 3 (s.reg.getD 3 0)), interrupts_enabled := false } (sp - 5) (by simpa using hreg) ?hsp5 (by omega) (by (try simp only [List.length_set]); omega)
    case hsp5 =>
      rw [getD_set_other _ _ _ _ 0 (by decide)]
      exact getD_set_self _ _ _ _ (by (try simp only [List.length_set]); omega)
    rw [hva4] at this
    rw [show (sp - 5) + 1 = (sp - 4) from by ring] at this
    exact this
  have hq5b : pySet ((((((((((s.reg.set 6 0).set 7 (sp - 8)).set 6 0).set 7 (sp - 7)).set 5 (s.reg.getD 5 0)).set 7 (sp - 6)).set 4 (s.reg.getD 4 0)).set 7 (sp - 5)).set 3 (s.reg.getD 3 0)).set 7 (sp - 4)) 2 (s.reg.getD 2 0) = .ok (((((((((((s.reg.set 6 0).set 7 (sp - 8)).set 6 0).set 7 (sp - 7)).set 5 (s.reg.getD 5 0)).set 7 (sp - 6)).set 4 (s.reg.getD 4 0)).set 7 (sp - 5)).set 3 (s.reg.getD 3 0)).set 7 (sp - 4)).set 2 (s.reg.getD 2 0)) := by
    have := pySet_nonneg ((((((((((s.reg.set 6 0).set 7 (sp - 8)).set 6 0).set 7 (sp - 7)).set 5 (s.reg.getD 5 0)).set 7 (sp - 6)).set 4 (s.reg.getD 4 0)).set 7 (sp - 5)).set 3 (s.reg.getD 3 0)).set 7 (sp - 4)) 2 (s.reg.getD 2 0) (by decide) (by (try simp only [List.length_set]); omega)
    rw [show ((2 : Int).toNat) = 2 from rfl] at this
    exact this
  have hq6a : stack_pop { pc := s.ram.getD (248 + i) 0, ir := 19, mar := s.mar, mdr := s.mdr, fl := s.fl, ram := (((((((((s.ram.set (sp - 1).toNat s.pc).set (sp - 2).toNat s.fl).set (sp - 3).toNat (s.reg.getD 0 0)).set (sp - 4).toNat (s.reg.getD 1 0)).set (sp - 5).toNat (s.reg.getD 2 0)).set (sp - 6).toNat (s.reg.getD 3 0)).set (sp - 7).toNat (s.reg.getD 4 0)).set (sp - 8).toNat (s.reg.getD 5 0)).set (sp - 9).toNat 0), reg := (((((((((((s.reg.set 6 0).set 7 (sp - 8)).set 6 0).set 7 (sp - 7)).set 5 (s.reg.getD 5 0)).set 7 (sp - 6)).set 4 (s.reg.getD 4 0)).set 7 (sp - 5)).set 3 (s.reg.getD 3 0)).set 7 (sp - 4)).set 2 (s.reg.getD 2 0)), interrupts_enabled := false } = .ok ({ pc := s.ram.getD (248 + i) 0, ir := 19, mar := s.mar, mdr := s.mdr, fl := s.fl, ram := (((((((((s.ram.set (sp - 1).toNat s.pc).set (sp - 2).toNat s.fl).set (sp - 3).toNat (s.reg.getD 0 0)).set (sp - 4).toNat (s.reg.getD 1 0)).set (sp - 5).toNat (s.reg.getD 2 0)).set (sp - 6).toNat (s.reg.getD 3 0)).set (sp - 7).toNat (s.reg.getD 4 0)).set (sp - 8).toNat (s.reg.getD 5 0)).set (sp - 9).toNat 0), reg := (((((((((((s.reg.set 6 0).set 7 (sp - 8)).set 6 0).set 7 (sp - 7)).set 5 (s.reg.getD 5 0)).set 7 (sp - 6)).set 4 (s.reg.getD 4 0)).set 7 (sp - 5)).set 3 (s.reg.getD 3 0)).set 7 (sp - 4)).set 2 (s.reg.getD 2 0)).set 7 (sp - 3), interrupts_enabled := false }, (s.reg.getD 1 0)) := by
    have := stack_pop_ok { pc := s.ram.getD (248 + i) 0, ir := 19, mar := s.mar, mdr := s.mdr, fl := s.fl, ram := (((((((((s.ram.set (sp - 1).toNat s.pc).set (sp - 2).toNat s.fl).set (sp - 3).toNat (s.reg.getD 0 0)).set (sp - 4).toNat (s.reg.getD 1 0)).set (sp - 5).toNat (s.reg.getD 2 0)).set (sp - 6).toNat (s.reg.getD 3 0)).set (sp - 7).toNat (s.reg.getD 4 0)).set (sp - 8).toNat (s.reg.getD 5 0)).set (sp - 9).toNat 0), reg := (((((((((((s.reg.set 6 0).set 7 (sp - 8)).set 6 0).set 7 (sp - 7)).set 5 (s.reg.getD 5 0)).set 7 (sp - 6)).set 4 (s.reg.getD 4 0)).set 7 (sp - 5)).set 3 (s.reg.getD 3 0)).set 7 (sp - 4)).set 2 (s.reg.getD 2 0)), interrupts_enabled := false } (sp - 4) (by simpa using hreg) ?hsp6 (by omega) (by (try simp only [List.length_set]); omega)
    case hsp6 =>
      rw [getD_set_other _ _ _ _ 0 (by decide)]
      exact getD_set_self _ _ _ _ (by (try simp only [List.length_set]); omega)
    rw [hva5] at this
    rw [show (sp - 4) + 1 = (sp - 3) from by ring] at this
    exact this
  have hq6b : pySet ((((((((((((s.reg.set 6 0).set 7 (sp - 8)).set 6 0).set 7 (sp - 7)).set 5 (s.reg.getD 5 0)).set 7 (sp - 6)).set 4 (s.reg.getD 4 0)).set 7 (sp - 5)).set 3 (s.reg.getD 3 0)).set 7 (sp - 4)).set 2 (s.reg.getD 2 0)).set 7 (sp - 3)) 1 (s.reg.getD 1 0) = .ok (((((((((((((s.reg.set 6 0).set 7 (sp - 8)).set 6 0).set 7 (sp - 7)).set 5 (s.reg.getD 5 0)).set 7 (sp - 6)).set 4 (s.reg.getD 4 0)).set 7 (sp - 5)).set 3 (s.reg.getD 3 0)).set 7 (sp - 4)).set 2 (s.reg.getD 2 0)).set 7 (sp - 3)).set 1 (s.reg.getD 1 0)) := by
    have := pySet_nonneg ((((((((((((s.reg.set 6 0).set 7 (sp - 8)).set 6 0).set 7 (sp - 7)).set 5 (s.reg.getD 5 0)).set 7 (sp - 6)).set 4 (s.reg.getD 4 0)).set 7 (sp - 5)).set 3 (s.reg.getD 3 0)).set 7 (sp - 4)).set 2 (s.reg.getD 2 0)).set 7 (sp - 3)) 1 (s.reg.getD 1 0) (by decide) (by (try simp only [List.length_set]); omega)
    rw [show ((1 : Int).toNat) = 1 from rfl] at this
    exact this
  have hq7a : stack_pop { pc := s.ram.getD (248 + i) 0, ir := 19, mar := s.mar, mdr := s.mdr, fl := s.fl, ram := (((((((((s.ram.set (sp - 1).toNat s.pc).set (sp - 2).toNat s.fl).set (sp - 3).toNat (s.reg.getD 0 0)).set (sp - 4).toNat (s.reg.getD 1 0)).set (sp - 5).toNat (s.reg.getD 2 0)).set (sp - 6).toNat (s.reg.getD 3 0)).set (sp - 7).toNat (s.reg.getD 4 0)).set (sp - 8).toNat (s.reg.getD 5 0)).set (sp - 9).toNat 0), reg := (((((((((((((s.reg.set 6 0).set 7 (sp - 8)).set 6 0).set 7 (sp - 7)).set 5 (s.reg.getD 5 0)).set 7 (sp - 6)).set 4 (s.reg.getD 4 0)).set 7 (sp - 5)).set 3 (s.reg.getD 3 0)).set 7 (sp - 4)).set 2 (s.reg.getD 2 0)).set 7 (sp - 3)).set 1 (s.reg.getD 1 0)), interrupts_enabled := false } = .ok ({ pc := s.ram.getD (248 + i) 0, ir := 19, mar := s.mar, mdr := s.mdr, fl := s.fl, ram := (((((((((s.ram.set (sp - 1).toNat s.pc).set (sp - 2).toNat s.fl).set (sp - 3).toNat (s.reg.getD 0 0)).set (sp - 4).toNat (s.reg.getD 1 0)).set (sp - 5).toNat (s.reg.getD 2 0)).set (sp - 6).toNat (s.reg.getD 3 0)).set (sp - 7).toNat (s.reg.getD 4 0)).set (sp - 8).toNat (s.reg.getD 5 0)).set (sp - 9).toNat 0), reg := (((((((((((((s.reg.set 6 0).set 7 (sp - 8)).set 6 0).set 7 (sp - 7)).set 5 (s.reg.getD 5 0)).set 7 (sp - 6)).set 4 (s.reg.getD 4 0)).set 7 (sp - 5)).set 3 (s.reg.getD 3 0)).set 7 (sp - 4)).set 2 (s.reg.getD 2 0)).set 7 (sp - 3)).set 1 (s.reg.getD 1 0)).set 7 (sp - 2), interrupts_enabled := false }, (s.reg.getD 0 0)) := by
    have := stack_pop_ok { pc := s.ram.getD (248 + i) 0, ir := 19, mar := s.mar, mdr := s.mdr, fl := s.fl, ram := (((((((((s.ram.set (sp - 1).toNat s.pc).set (sp - 2).toNat s.fl).set (sp - 3).toNat (s.reg.getD 0 0)).set (sp - 4).toNat (s.reg.getD 1 0)).set (sp - 5).toNat (s.reg.getD 2 0)).set (sp - 6).toNat (s.reg.getD 3 0)).set (sp - 7).toNat (s.reg.getD 4 0)).set (sp - 8).toNat (s.reg.getD 5 0)).set (sp - 9).toNat 0), reg := (((((((((((((s.reg.set 6 0).set 7 (sp - 8)).set 6 0).set 7 (sp - 7)).set 5 (s.reg.getD 5 0)).set 7 (sp - 6)).set 4 (s.reg.getD 4 0)).set 7 (sp - 5)).set 3 (s.reg.getD 3 0)).set 7 (sp - 4)).set 2 (s.reg.getD 2 0)).set 7 (sp - 3)).set 1 (s.reg.getD 1 0)), interrupts_enabled := false } (sp - 3) (by simpa using hreg) ?hsp7 (by omega) (by (try simp only [List.length_set]); omega)
    case hsp7 =>
      rw [getD_set_other _ _ _ _ 0 (by decide)]
      exact getD_set_self _ _ _ _ (by (try simp only [List.length_set]); omega)
    rw [hva6] at this
    rw [show (sp - 3) + 1 = (sp - 2) from by ring] at this
    exact this
  have hq7b : pySet ((((((((((((((s.reg.set 6 0).set 7 (sp - 8)).set 6 0).set 7 (sp - 7)).set 5 (s.reg.getD 5 0)).set 7 (sp - 6)).set 4 (s.reg.getD 4 0)).set 7 (sp - 5)).set 3 (s.reg.getD 3 0)).set 7 (sp - 4)).set 2 (s.reg.getD 2 0)).set 7 (sp - 3)).set 1 (s.reg.getD 1 0)).set 7 (sp - 2)) 0 (s.reg.getD 0 0) = .ok (((((((((((((((s.reg.set 6 0).set 7 (sp - 8)).set 6 0).set 7 (sp - 7)).set 5 (s.reg.getD 5 0)).set 7 (sp - 6)).set 4 (s.reg.getD 4 0)).set 7 (sp - 5)).set 3 (s.reg.getD 3 0)).set 7 (sp - 4)).set 2 (s.reg.getD 2 0)).set 7 (sp - 3)).set 1 (s.reg.getD 1 0)).set 7 (sp - 2)).set 0 (s.reg.getD 0 0)) := by
    have := pySet_nonneg ((((((((((((((s.reg.set 6 0).set 7 (sp - 8)).set 6 0).set 7 (sp - 7)).set 5 (s.reg.getD 5 0)).set 7 (sp - 6)).set 4 (s.reg.getD 4 0)).set 7 (sp - 5)).set 3 (s.reg.getD 3 0)).set 7 (sp - 4)).set 2 (s.reg.getD 2 0)).set 7 (sp - 3)).set 1 (s.reg.getD 1 0)).set 7 (sp - 2)) 0 (s.reg.getD 0 0) (by decide) (by (try simp only [List.length_set]); omega)
    rw [show ((0 : Int).toNat) = 0 from rfl] at this
    exact this
  have hqf : stack_pop { pc := s.ram.getD (248 + i) 0, ir := 19, mar := s.mar, mdr := s.mdr, fl := s.fl, ram := (((((((((s.ram.set (sp - 1).toNat s.pc).set (sp - 2).toNat s.fl).set (sp - 3).toNat (s.reg.getD 0 0)).set (sp - 4).toNat (s.reg.getD 1 0)).set (sp - 5).toNat (s.reg.getD 2 0)).set (sp - 6).toNat (s.reg.getD 3 0)).set (sp - 7).toNat (s.reg.getD 4 0)).set (sp - 8).toNat (s.reg.getD 5 0)).set (sp - 9).toNat 0), reg := (((((((((((((((s.reg.set 6 0).set 7 (sp - 8)).set 6 0).set 7 (sp - 7)).set 5 (s.reg.getD 5 0)).set 7 (sp - 6)).set 4 (s.reg.getD 4 0)).set 7 (sp - 5)).set 3 (s.reg.getD 3 0)).set 7 (sp - 4)).set 2 (s.reg.getD 2 0)).set 7 (sp - 3)).set 1 (s.reg.getD 1 0)).set 7 (sp - 2)).set 0 (s.reg.getD 0 0)), interrupts_enabled := false } = .ok ({ pc := s.ram.getD (248 + i) 0, ir := 19, mar := s.mar, mdr := s.mdr, fl := s.fl, ram := (((((((((s.ram.set (sp - 1).toNat s.pc).set (sp - 2).toNat s.fl).set (sp - 3).toNat (s.reg.getD 0 0)).set (sp - 4).toNat (s.reg.getD 1 0)).set (sp - 5).toNat (s.reg.getD 2 0)).set (sp - 6).toNat (s.reg.getD 3 0)).set (sp - 7).toNat (s.reg.getD 4 0)).set (sp - 8).toNat (s.reg.getD 5 0)).set (sp - 9).toNat 0), reg := (((((((((((((((s.reg.set 6 0).set 7 (sp - 8)).set 6 0).set 7 (sp - 7)).set 5 (s.reg.getD 5 0)).set 7 (sp - 6)).set 4 (s.reg.getD 4 0)).set 7 (sp - 5)).set 3 (s.reg.getD 3 0)).set 7 (sp - 4)).set 2 (s.reg.getD 2 0)).set 7 (sp - 3)).set 1 (s.reg.getD 1 0)).set 7 (sp - 2)).set 0 (s.reg.getD 0 0)).set 7 (sp - 1), interrupts_enabled := false }, s.fl) := by
    have := stack_pop_ok { pc := s.ram.getD (248 + i) 0, ir := 19, mar := s.mar, mdr := s.mdr, fl := s.fl, ram := (((((((((s.ram.set (sp - 1).toNat s.pc).set (sp - 2).toNat s.fl).set (sp - 3).toNat (s.reg.getD 0 0)).set (sp - 4).toNat (s.reg.getD 1 0)).set (sp - 5).toNat (s.reg.getD 2 0)).set (sp - 6).toNat (s.reg.getD 3 0)).set (sp - 7).toNat (s.reg.getD 4 0)).set (sp - 8).toNat (s.reg.getD 5 0)).set (sp - 9).toNat 0), reg := (((((((((((((((s.reg.set 6 0).set 7 (sp - 8)).set 6 0).set 7 (sp - 7)).set 5 (s.reg.getD 5 0)).set 7 (sp - 6)).set 4 (s.reg.getD 4 0)).set 7 (sp - 5)).set 3 (s.reg.getD 3 0)).set 7 (sp - 4)).set 2 (s.reg.getD 2 0)).set 7 (sp - 3)).set 1 (s.reg.getD 1 0)).set 7 (sp - 2)).set 0 (s.reg.getD 0 0)), interrupts_enabled := false } (sp - 2) (by simpa using hreg) ?hspf (by omega) (by (try simp only [List.length_set]); omega)
    case hspf =>
      rw [getD_set_other _ _ _ _ 0 (by decide)]
      exact getD_set_self _ _ _ _ (by (try simp only [List.length_set]); omega)
    rw [hva7] at this
    rw [show (sp - 2) + 1 = (sp - 1) from by ring] at this
    exact this
  have hqp : stack_pop { pc := s.ram.getD (248 + i) 0, ir := 19, mar := s.mar, mdr := s.mdr, fl := s.fl, ram := (((((((((s.ram.set (sp - 1).toNat s.pc).set (sp - 2).toNat s.fl).set (sp - 3).toNat (s.reg.getD 0 0)).set (sp - 4).toNat (s.reg.getD 1 0)).set (sp - 5).toNat (s.reg.getD 2 0)).set (sp - 6).toNat (s.reg.getD 3 0)).set (sp - 7).toNat (s.reg.getD 4 0)).set (sp - 8).toNat (s.reg.getD 5 0)).set (sp - 9).toNat 0), reg := (((((((((((((((s.reg.set 6 0).set 7 (sp - 8)).set 6 0).set 7 (sp - 7)).set 5 (s.reg.getD 5 0)).set 7 (sp - 6)).set 4 (s.reg.getD 4 0)).set 7 (sp - 5)).set 3 (s.reg.getD 3 0)).set 7 (sp - 4)).set 2 (s.reg.getD 2 0)).set 7 (sp - 3)).set 1 (s.reg.getD 1 0)).set 7 (sp - 2)).set 0 (s.reg.getD 0 0)).set 7 (sp - 1), interrupts_enabled := false } = .ok ({ pc := s.ram.getD (248 + i) 0, ir := 19, mar := s.mar, mdr := s.mdr, fl := s.fl, ram := (((((((((s.ram.set (sp - 1).toNat s.pc).set (sp - 2).toNat s.fl).set (sp - 3).toNat (s.reg.getD 0 0)).set (sp - 4).toNat (s.reg.getD 1 0)).set (sp - 5).toNat (s.reg.getD 2 0)).set (sp - 6).toNat (s.reg.getD 3 0)).set (sp - 7).toNat (s.reg.getD 4 0)).set (sp - 8).toNat (s.reg.getD 5 0)).set (sp - 9).toNat 0), reg := (((((((((((((((s.reg.set 6 0).set 7 (sp - 8)).set 6 0).set 7 (sp - 7)).set 5 (s.reg.getD 5 0)).set 7 (sp - 6)).set 4 (s.reg.getD 4 0)).set 7 (sp - 5)).set 3 (s.reg.getD 3 0)).set 7 (sp - 4)).set 2 (s.reg.getD 2 0)).set 7 (sp - 3)).set 1 (s.reg.getD 1 0)).set 7 (sp - 2)).set 0 (s.reg.getD 0 0)).set 7 sp, interrupts_enabled := false }, s.pc) := by
    have := stack_pop_ok { pc := s.ram.getD (248 + i) 0, ir := 19, mar := s.mar, mdr := s.mdr, fl := s.fl, ram := (((((((((s.ram.set (sp - 1).toNat s.pc).set (sp - 2).toNat s.fl).set (sp - 3).toNat (s.reg.getD 0 0)).set (sp - 4).toNat (s.reg.getD 1 0)).set (sp - 5).toNat (s.reg.getD 2 0)).set (sp - 6).toNat (s.reg.getD 3 0)).set (sp - 7).toNat (s.reg.getD 4 0)).set (sp - 8).toNat (s.reg.getD 5 0)).set (sp - 9).toNat 0), reg := (((((((((((((((s.reg.set 6 0).set 7 (sp - 8)).set 6 0).set 7 (sp - 7)).set 5 (s.reg.getD 5 0)).set 7 (sp - 6)).set 4 (s.reg.getD 4 0)).set 7 (sp - 5)).set 3 (s.reg.getD 3 0)).set 7 (sp - 4)).set 2 (s.reg.getD 2 0)).set 7 (sp - 3)).set 1 (s.reg.getD 1 0)).set 7 (sp - 2)).set 0 (s.reg.getD 0 0)).set 7 (sp - 1), interrupts_enabled := false } (sp - 1) (by simpa using hreg) ?hspp (by omega) (by (try simp only [List.length_set]); omega)
    case hspp =>
      exact getD_set_self _ _ _ _ (by (try simp only [List.length_set]); omega)
    rw [hva8] at this
    rw [show (sp - 1) + 1 = sp from by ring] at this
    rw [List.set_set] at this
    exact this
  unfold execInstr
  rw [hfetch, ok_bind]
  simp only [Int.reduceEq, reduceIte]
  simp only [popRegs, Nat.cast_ofNat, Nat.cast_zero, Nat.cast_one, Nat.reduceAdd,
    hq1a, hq1b, hq2a, hq2b, hq3a, hq3b, hq4a, hq4b, hq5a, hq5b, hq6a, hq6b, hq7a, hq7b,
    hqf, hqp, ok_bind]
  rfl

/-- C6 (amended): running IRET immediately after an interrupt trap restores
PC, FL, and registers 0 through 5 to their pre-trap values, re-enables
interrupts, and skips the generic advance; register 6 (IS) ends as 0, the
value the trap cleared it to, not its pre-trap value. -/
theorem trap_iret_round_trip (s : CPUState) (sp : Int) (m i : Nat) (v : Int)
    (hen : s.interrupts_enabled = true)
    (hreg : s.reg.length = 8) (hram : s.ram.length = 256)
    (him : s.reg.getD 5 0 = 255)
    (hm : s.reg.getD 6 0 = (m : Int)) (hm256 : m < 256)
    (hbit : m.testBit i = true) (hlow : ∀ j < i, m.testBit j = false)
    (hsp : s.reg.getD 7 0 = sp) (h9 : 9 ≤ sp) (h248 : sp ≤ 248)
    (hv : s.ram.getD (248 + i) 0 = v) (hv0 : 0 ≤ v) (hv256 : v < 256)
    (hvdisj : v < sp - 9 ∨ sp ≤ v)
    (hinstr : s.ram.getD v.toNat 0 = 19) :
    ∃ s1 r, interruptCheck s = .ok s1 ∧ execInstr s1 = .ok r ∧
      r.state.pc = s.pc ∧ r.state.fl = s.fl ∧
      r.state.reg.getD 0 0 = s.reg.getD 0 0 ∧
      r.state.reg.getD 1 0 = s.reg.getD 1 0 ∧
      r.state.reg.getD 2 0 = s.reg.getD 2 0 ∧
      r.state.reg.getD 3 0 = s.reg.getD 3 0 ∧
      r.state.reg.getD 4 0 = s.reg.getD 4 0 ∧
      r.state.reg.getD 5 0 = s.reg.getD 5 0 ∧
      r.state.reg.getD 6 0 = 0 ∧
      r.state.interrupts_enabled = true ∧ r.jumped = true := by
  refine ⟨_, _, interruptCheck_trap s sp m i hen hreg hram him hm hm256 hbit hlow hsp h9 h248,
    trap_iret_eval s sp i v hreg hram hsp h9 h248 hv hv0 hv256 hvdisj hinstr,
    rfl, rfl, ?_, ?_, ?_, ?_, ?_, ?_, ?_, rfl, rfl⟩
  · -- register 0
    rw [getD_set_other _ _ _ _ 0 (by decide)]
    exact getD_set_self _ _ _ _ (by (try simp only [List.length_set]); omega)
  · -- register 1
    rw [getD_set_other _ _ _ _ 0 (by decide)]
    rw [getD_set_other _ _ _ _ 0 (by decide)]
    rw [getD_set_other _ _ _ _ 0 (by decide)]
    exact getD_set_self _ _ _ _ (by (try simp only [List.length_set]); omega)
  · -- register 2
    rw [getD_set_other _ _ _ _ 0 (by decide)]
    rw [getD_set_other _ _ _ _ 0 (by decide)]
    rw [getD_set_other _ _ _ _ 0 (by decide)]
    rw [getD_set_other _ _ _ _ 0 (by decide)]
    rw [getD_set_other _ _ _ _ 0 (by decide)]
    exact getD_set_self _ _ _ _ (by (try simp only [List.length_set]); omega)
  · -- register 3
    rw [getD_set_other _ _ _ _ 0 (by decide)]
    rw [getD_set_other _ _ _ _ 0 (by decide)]
    rw [getD_set_other _ _ _ _ 0 (by decide)]
    rw [getD_set_other _ _ _ _ 0 (by decide)]
    rw [getD_set_other _ _ _ _ 0 (by decide)]
    rw [getD_set_other _ _ _ _ 0 (by decide)]
    rw [getD_set_other _ _ _ _ 0 (by decide)]
    exact getD_set_self _ _ _ _ (by (try simp only [List.length_set]); omega)
  · -- register 4
    rw [getD_set_other _ _ _ _ 0 (by decide)]
    rw [getD_set_other _ _ _ _ 0 (by decide)]
    rw [getD_set_other _ _ _ _ 0 (by decide)]
    rw [getD_set_other _ _ _ _ 0 (by decide)]
    rw [getD_set_other _ _ _ _ 0 (by decide)]
    rw [getD_set_other _ _ _ _ 0 (by decide)]
    rw [getD_set_other _ _ _ _ 0 (by decide)]
    rw [getD_set_other _ _ _ _ 0 (by decide)]
    rw [getD_set_other _ _ _ _ 0 (by decide)]
    exact getD_set_self _ _ _ _ (by (try simp only [List.length_set]); omega)
  · -- register 5
    rw [getD_set_other _ _ _ _ 0 (by decide)]
    rw [getD_set_other _ _ _ _ 0 (by decide)]
    rw [getD_set_other _ _ _ _ 0 (by decide)]
    rw [getD_set_other _ _ _ _ 0 (by decide)]
    rw [getD_set_other _ _ _ _ 0 (by decide)]
    rw [getD_set_other _ _ _ _ 0 (by decide)]
    rw [getD_set_other _ _ _ _ 0 (by decide)]
    rw [getD_set_other _ _ _ _ 0 (by decide)]
    rw [getD_set_other _ _ _ _ 0 (by decide)]
    rw [getD_set_other _ _ _ _ 0 (by decide)]
    rw [getD_set_other _ _ _ _ 0 (by decide)]
    exact getD_set_self _ _ _ _ (by (try simp only [List.length_set]); omega)
  · -- register 6
    rw [getD_set_other _ _ _ _ 0 (by decide)]
    rw [getD_set_other _ _ _ _ 0 (by decide)]
    rw [getD_set_other _ _ _ _ 0 (by decide)]
    rw [getD_set_other _ _ _ _ 0 (by decide)]
    rw [getD_set_other _ _ _ _ 0 (by decide)]
    rw [getD_set_other _ _ _ _ 0 (by decide)]
    rw [getD_set_other _ _ _ _ 0 (by decide)]
    rw [getD_set_other _ _ _ _ 0 (by decide)]
    rw [getD_set_other _ _ _ _ 0 (by decide)]
    rw [getD_set_other _ _ _ _ 0 (by decide)]
    rw [getD_set_other _ _ _ _ 0 (by decide)]
    rw [getD_set_other _ _ _ _ 0 (by decide)]
    rw [getD_set_other _ _ _ _ 0 (by decide)]
    exact getD_set_self _ _ _ _ (by (try simp only [List.length_set]); omega)

/-- C10: during a trap the IS register is cleared before the general
registers are saved, so the stack slot for register 6 holds 0, and after the
matching IRET register 6 equals 0 regardless of its pre-trap value. -/
theorem trap_clears_is_before_save (s : CPUState) (sp : Int) (m i : Nat) (v : Int)
    (hen : s.interrupts_enabled = true)
    (hreg : s.reg.length = 8) (hram : s.ram.length = 256)
    (him : s.reg.getD 5 0 = 255)
    (hm : s.reg.getD 6 0 = (m : Int)) (hm256 : m < 256)
    (hbit : m.testBit i = true) (hlow : ∀ j < i, m.testBit j = false)
    (hsp : s.reg.getD 7 0 = sp) (h9 : 9 ≤ sp) (h248 : sp ≤ 248)
    (hv : s.ram.getD (248 + i) 0 = v) (hv0 : 0 ≤ v) (hv256 : v < 256)
    (hvdisj : v < sp - 9 ∨ sp ≤ v)
    (hinstr : s.ram.getD v.toNat 0 = 19) :
    ∃ s1 r, interruptCheck s = .ok s1 ∧ s1.ram.getD (sp - 9).toNat 0 = 0 ∧
      execInstr s1 = .ok r ∧ r.state.reg.getD 6 0 = 0 := by
  refine ⟨_, _, interruptCheck_trap s sp m i hen hreg hram him hm hm256 hbit hlow hsp h9 h248,
    ?_, trap_iret_eval s sp i v hreg hram hsp h9 h248 hv hv0 hv256 hvdisj hinstr, ?_⟩
  · exact getD_set_self _ _ _ _ (by (try simp only [List.length_set]); omega)
  · -- register 6 after IRET
    rw [getD_set_other _ _ _ _ 0 (by decide)]
    rw [getD_set_other _ _ _ _ 0 (by decide)]
    rw [getD_set_other _ _ _ _ 0 (by decide)]
    rw [getD_set_other _ _ _ _ 0 (by decide)]
    rw [getD_set_other _ _ _ _ 0 (by decide)]
    rw [getD_set_other _ _ _ _ 0 (by decide)]
    rw [getD_set_other _ _ _ _ 0 (by decide)]
    rw [getD_set_other _ _ _ _ 0 (by decide)]
    rw [getD_set_other _ _ _ _ 0 (by decide)]
    rw [getD_set_other _ _ _ _ 0 (by decide)]
    rw [getD_set_other _ _ _ _ 0 (by decide)]
    rw [getD_set_other _ _ _ _ 0 (by decide)]
    rw [getD_set_other _ _ _ _ 0 (by decide)]
    exact getD_set_self _ _ _ _ (by (try simp only [List.length_set]); omega)

set_option maxRecDepth 100000 in
/-- C5 witness: the trap theorem applied at a concrete state with IS = 4
(lowest set bit 2), IM = 0xFF, SP = 244 and vector entry 153 at address 250. -/
theorem interrupt_trap_spec_witness :
    interruptCheck { pc := 11, ir := 0, mar := 3, mdr := 4, fl := 5, ram := ((List.replicate 256 0).set 250 153), reg := ([10, 20, 30, 40, 50, 255, 4, 244] : List Int), interrupts_enabled := true } = .ok { pc := ((List.replicate 256 0).set 250 153).getD (248 + 2) 0, ir := 0, mar := 3, mdr := 4, fl := 5, ram := (((((((((((List.replicate 256 0).set 250 153).set ((244 : Int) - 1).toNat 11).set ((244 : Int) - 2).toNat 5).set ((244 : Int) - 3).toNat (([10, 20, 30, 40, 50, 255, 4, 244] : List Int).getD 0 0)).set ((244 : Int) - 4).toNat (([10, 20, 30, 40, 50, 255, 4, 244] : List Int).getD 1 0)).set ((244 : Int) - 5).toNat (([10, 20, 30, 40, 50, 255, 4, 244] : List Int).getD 2 0)).set ((244 : Int) - 6).toNat (([10, 20, 30, 40, 50, 255, 4, 244] : List Int).getD 3 0)).set ((244 : Int) - 7).toNat (([10, 20, 30, 40, 50, 255, 4, 244] : List Int).getD 4 0)).set ((244 : Int) - 8).toNat (([10, 20, 30, 40, 50, 255, 4, 244] : List Int).getD 5 0)).set ((244 : Int) - 9).toNat 0), reg := ((([10, 20, 30, 40, 50, 255, 4, 244] : List Int).set 6 0).set 7 ((244 : Int) - 9)), interrupts_enabled := false } :=
  interrupt_trap_spec { pc := 11, ir := 0, mar := 3, mdr := 4, fl := 5, ram := ((List.replicate 256 0).set 250 153), reg := ([10, 20, 30, 40, 50, 255, 4, 244] : List Int), interrupts_enabled := true } 244 4 2 rfl rfl (by simp) rfl rfl (by norm_num) (by decide) (by decide) rfl (by norm_num) (by norm_num)

set_option maxRecDepth 100000 in
/-- C6 witness: the round-trip theorem at the same concrete state, with the
IRET opcode stored at the handler address 153. -/
theorem trap_iret_round_trip_witness :
    ∃ s1 r, interruptCheck { pc := 11, ir := 0, mar := 3, mdr := 4, fl := 5, ram := (((List.replicate 256 0).set 250 153).set 153 19), reg := ([10, 20, 30, 40, 50, 255, 4, 244] : List Int), interrupts_enabled := true } = .ok s1 ∧ execInstr s1 = .ok r ∧
      r.state.pc = 11 ∧ r.state.fl = 5 ∧
      r.state.reg.getD 0 0 = 10 ∧
      r.state.reg.getD 1 0 = 20 ∧
      r.state.reg.getD 2 0 = 30 ∧
      r.state.reg.getD 3 0 = 40 ∧
      r.state.reg.getD 4 0 = 50 ∧
      r.state.reg.getD 5 0 = 255 ∧
      r.state.reg.getD 6 0 = 0 ∧
      r.state.interrupts_enabled = true ∧ r.jumped = true :=
  trap_iret_round_trip { pc := 11, ir := 0, mar := 3, mdr := 4, fl := 5, ram := (((List.replicate 256 0).set 250 153).set 153 19), reg := ([10, 20, 30, 40, 50, 255, 4, 244] : List Int), interrupts_enabled := true } 244 4 2 153 rfl rfl (by simp) rfl rfl (by norm_num) (by decide) (by decide) rfl (by norm_num) (by norm_num) rfl (by norm_num) (by norm_num) (Or.inl (by norm_num)) rfl

set_option maxRecDepth 100000 in
/-- C6 counterexample: at the same concrete input, register 6 held 4 before
the trap but holds 0 after the trap and the immediately following IRET, so
IRET does not restore register 6 to its pre-trap value. -/
theorem iret_reg6_not_restored :
    ((interruptCheck { pc := 11, ir := 0, mar := 3, mdr := 4, fl := 5, ram := (((List.replicate 256 0).set 250 153).set 153 19), reg := ([10, 20, 30, 40, 50, 255, 4, 244] : List Int), interrupts_enabled := true }) >>= execInstr).map (fun r => r.state.reg.getD 6 0) = .ok 0 ∧
    ({ pc := 11, ir := 0, mar := 3, mdr := 4, fl := 5, ram := (((List.replicate 256 0).set 250 153).set 153 19), reg := ([10, 20, 30, 40, 50, 255, 4, 244] : List Int), interrupts_enabled := true } : CPUState).reg.getD 6 0 = 4 ∧ ¬ ((0 : Int) = 4) :=
  ⟨rfl, rfl, by decide⟩

set_option maxRecDepth 100000 in
/-- C10 witness: at the concrete input, the stack slot saved for register 6
holds 0 and register 6 is 0 after the IRET. -/
theorem trap_clears_is_before_save_witness :
    ∃ s1 r, interruptCheck { pc := 11, ir := 0, mar := 3, mdr := 4, fl := 5, ram := (((List.replicate 256 0).set 250 153).set 153 19), reg := ([10, 20, 30, 40, 50, 255, 4, 244] : List Int), interrupts_enabled := true } = .ok s1 ∧ s1.ram.getD ((244 : Int) - 9).toNat 0 = 0 ∧
      execInstr s1 = .ok r ∧ r.state.reg.getD 6 0 = 0 :=
  trap_clears_is_before_save { pc := 11, ir := 0, mar := 3, mdr := 4, fl := 5, ram := (((List.replicate 256 0).set 250 153).set 153 19), reg := ([10, 20, 30, 40, 50, 255, 4, 244] : List Int), interrupts_enabled := true } 244 4 2 153 rfl rfl (by simp) rfl rfl (by norm_num) (by decide) (by decide) rfl (by norm_num) (by norm_num) rfl (by norm_num) (by norm_num) (Or.inl (by norm_num)) rfl


/-! ### C7: PC advance discipline -/

theorem bind_ok_elim {α β : Type} {x : Except MachErr α} {f : α → Except MachErr β} {b : β}
    (h : (x >>= f) = .ok b) : ∃ a, x = .ok a ∧ f a = .ok b := bind_eq_ok.mp h

/-- The ALU never changes PC or IR. -/
theorem alu_pres (op : String) (ra rb : Int) (s s' : CPUState)
    (h : alu op ra rb s = .ok s') : s'.pc = s.pc ∧ s'.ir = s.ir := by
  unfold alu at h
  by_cases hc0 : op = "ADD"
  · rw [if_pos hc0] at h
    obtain ⟨a, -, h⟩ := bind_ok_elim h
    obtain ⟨b, -, h⟩ := bind_ok_elim h
    obtain ⟨rg, -, h⟩ := bind_ok_elim h
    rw [pure_eq_ok] at h
    subst h
    exact ⟨rfl, rfl⟩
  · rw [if_neg hc0] at h
    by_cases hc1 : op = "SUB"
    · rw [if_pos hc1] at h
      obtain ⟨a, -, h⟩ := bind_ok_elim h
      obtain ⟨b, -, h⟩ := bind_ok_elim h
      obtain ⟨rg, -, h⟩ := bind_ok_elim h
      rw [pure_eq_ok] at h
      subst h
      exact ⟨rfl, rfl⟩
    · rw [if_neg hc1] at h
      by_cases hc2 : op = "MUL"
      · rw [if_pos hc2] at h
        obtain ⟨a, -, h⟩ := bind_ok_elim h
        obtain ⟨b, -, h⟩ := bind_ok_elim h
        obtain ⟨rg, -, h⟩ := bind_ok_elim h
        rw [pure_eq_ok] at h
        subst h
        exact ⟨rfl, rfl⟩
      · rw [if_neg hc2] at h
        by_cases hc3 : op = "DIV"
        · rw [if_pos hc3] at h
          obtain ⟨a, -, h⟩ := bind_ok_elim h
          obtain ⟨b, -, h⟩ := bind_ok_elim h
          by_cases hb : b = 0
          · rw [if_pos hb] at h
            exact Except.noConfusion h
          · rw [if_neg hb] at h
            obtain ⟨rg, -, h⟩ := bind_ok_elim h
            rw [pure_eq_ok] at h
            subst h
            exact ⟨rfl, rfl⟩
        · rw [if_neg hc3] at h
          by_cases hc4 : op = "MOD"
          · rw [if_pos hc4] at h
            obtain ⟨a, -, h⟩ := bind_ok_elim h
            obtain ⟨b, -, h⟩ := bind_ok_elim h
            by_cases hb : b = 0
            · rw [if_pos hb] at h
              exact Except.noConfusion h
            · rw [if_neg hb] at h
              obtain ⟨rg, -, h⟩ := bind_ok_elim h
              rw [pure_eq_ok] at h
              subst h
              exact ⟨rfl, rfl⟩
          · rw [if_neg hc4] at h
            by_cases hc5 : op = "DEC"
            · rw [if_pos hc5] at h
              obtain ⟨a, -, h⟩ := bind_ok_elim h
              obtain ⟨rg, -, h⟩ := bind_ok_elim h
              rw [pure_eq_ok] at h
              subst h
              exact ⟨rfl, rfl⟩
            · rw [if_neg hc5] at h
              by_cases hc6 : op = "INC"
              · rw [if_pos hc6] at h
                obtain ⟨a, -, h⟩ := bind_ok_elim h
                obtain ⟨rg, -, h⟩ := bind_ok_elim h
                rw [pure_eq_ok] at h
                subst h
                exact ⟨rfl, rfl⟩
              · rw [if_neg hc6] at h
                by_cases hc7 : op = "AND"
                · rw [if_pos hc7] at h
                  obtain ⟨a, -, h⟩ := bind_ok_elim h
                  obtain ⟨b, -, h⟩ := bind_ok_elim h
                  obtain ⟨rg, -, h⟩ := bind_ok_elim h
                  rw [pure_eq_ok] at h
                  subst h
                  exact ⟨rfl, rfl⟩
                · rw [if_neg hc7] at h
                  by_cases hc8 : op = "OR"
                  · rw [if_pos hc8] at h
                    obtain ⟨a, -, h⟩ := bind_ok_elim h
                    obtain ⟨b, -, h⟩ := bind_ok_elim h
                    obtain ⟨rg, -, h⟩ := bind_ok_elim h
                    rw [pure_eq_ok] at h
                    subst h
                    exact ⟨rfl, rfl⟩
                  · rw [if_neg hc8] at h
                    by_cases hc9 : op = "XOR"
                    · rw [if_pos hc9] at h
                      obtain ⟨a, -, h⟩ := bind_ok_elim h
                      obtain ⟨b, -, h⟩ := bind_ok_elim h
                      obtain ⟨rg, -, h⟩ := bind_ok_elim h
                      rw [pure_eq_ok] at h
                      subst h
                      exact ⟨rfl, rfl⟩
                    · rw [if_neg hc9] at h
                      by_cases hc10 : op = "NOT"
                      · rw [if_pos hc10] at h
                        obtain ⟨a, -, h⟩ := bind_ok_elim h
                        obtain ⟨rg, -, h⟩ := bind_ok_elim h
                        rw [pure_eq_ok] at h
                        subst h
                        exact ⟨rfl, rfl⟩
                      · rw [if_neg hc10] at h
                        by_cases hc11 : op = "SHL"
                        · rw [if_pos hc11] at h
                          obtain ⟨a, -, h⟩ := bind_ok_elim h
                          obtain ⟨b, -, h⟩ := bind_ok_elim h
                          obtain ⟨rr, -, h⟩ := bind_ok_elim h
                          obtain ⟨rg, -, h⟩ := bind_ok_elim h
                          rw [pure_eq_ok] at h
                          subst h
                          exact ⟨rfl, rfl⟩
                        · rw [if_neg hc11] at h
                          by_cases hc12 : op = "SHR"
                          · rw [if_pos hc12] at h
                            obtain ⟨a, -, h⟩ := bind_ok_elim h
                            obtain ⟨b, -, h⟩ := bind_ok_elim h
                            obtain ⟨rr, -, h⟩ := bind_ok_elim h
                            obtain ⟨rg, -, h⟩ := bind_ok_elim h
                            rw [pure_eq_ok] at h
                            subst h
                            exact ⟨rfl, rfl⟩
                          · rw [if_neg hc12] at h
                            by_cases hc13 : op = "CMP"
                            · rw [if_pos hc13] at h
                              obtain ⟨a, -, h⟩ := bind_ok_elim h
                              obtain ⟨b, -, h⟩ := bind_ok_elim h
                              split_ifs at h <;> (rw [pure_eq_ok] at h; subst h; exact ⟨rfl, rfl⟩)
                            · rw [if_neg hc13] at h
                              exact Except.noConfusion h

/-- The two stack primitives never change PC or IR. -/
theorem stack_push_pres (s : CPUState) (v : Int) (s' : CPUState)
    (h : stack_push s v = .ok s') : s'.pc = s.pc ∧ s'.ir = s.ir := by
  unfold stack_push at h
  obtain ⟨sp, -, h⟩ := bind_ok_elim h
  obtain ⟨rg, -, h⟩ := bind_ok_elim h
  obtain ⟨rm, -, h⟩ := bind_ok_elim h
  rw [pure_eq_ok] at h
  subst h
  exact ⟨rfl, rfl⟩

theorem stack_pop_pres (s : CPUState) (p : CPUState × Int)
    (h : stack_pop s = .ok p) : p.1.pc = s.pc ∧ p.1.ir = s.ir ∧ p.1.ram = s.ram := by
  unfold stack_pop at h
  obtain ⟨sp, -, h⟩ := bind_ok_elim h
  obtain ⟨rg, -, h⟩ := bind_ok_elim h
  obtain ⟨v, -, h⟩ := bind_ok_elim h
  rw [pure_eq_ok] at h
  subst h
  exact ⟨rfl, rfl, rfl⟩

/-- Every instruction branch that does not end in `continue` leaves PC
untouched, so the generic advance gives exactly `pc + (ir >> 6) + 1`. -/
theorem exec_pc_nonjump (s : CPUState) (r : StepResult)
    (h : execInstr s = .ok r) (hj : r.jumped = false) :
    r.state.pc = s.pc + (r.state.ir >>> (6 : Int)) + 1 := by
  unfold execInstr at h
  obtain ⟨ir, hf, h⟩ := bind_ok_elim h
  by_cases hc0 : ir = 0b10000010
  · rw [if_pos hc0] at h
    obtain ⟨x1, -, h⟩ := bind_ok_elim h
    obtain ⟨x2, -, h⟩ := bind_ok_elim h
    obtain ⟨x3, -, h⟩ := bind_ok_elim h
    rw [pure_eq_ok] at h
    subst h
    simp [stepNext, pcAdvance]
  · rw [if_neg hc0] at h
    by_cases hc1 : ir = 0b01000111
    · rw [if_pos hc1] at h
      obtain ⟨x1, -, h⟩ := bind_ok_elim h
      obtain ⟨x2, -, h⟩ := bind_ok_elim h
      rw [pure_eq_ok] at h
      subst h
      simp [stepNext, pcAdvance]
    · rw [if_neg hc1] at h
      by_cases hc2 : ir = 0b01001000
      · rw [if_pos hc2] at h
        obtain ⟨x1, -, h⟩ := bind_ok_elim h
        obtain ⟨x2, -, h⟩ := bind_ok_elim h
        rw [pure_eq_ok] at h
        subst h
        simp [stepNext, pcAdvance]
      · rw [if_neg hc2] at h
        by_cases hc3 : ir = 0b10100000
        · rw [if_pos hc3] at h
          obtain ⟨x1, -, h⟩ := bind_ok_elim h
          obtain ⟨x2, -, h⟩ := bind_ok_elim h
          obtain ⟨s2, halu, h⟩ := bind_ok_elim h
          rw [pure_eq_ok] at h
          subst h
          simp [stepNext, pcAdvance, (alu_pres _ _ _ _ _ halu).1, (alu_pres _ _ _ _ _ halu).2]
        · rw [if_neg hc3] at h
          by_cases hc4 : ir = 0b10100001
          · rw [if_pos hc4] at h
            obtain ⟨x1, -, h⟩ := bind_ok_elim h
            obtain ⟨x2, -, h⟩ := bind_ok_elim h
            obtain ⟨s2, halu, h⟩ := bind_ok_elim h
            rw [pure_eq_ok] at h
            subst h
            simp [stepNext, pcAdvance, (alu_pres _ _ _ _ _ halu).1, (alu_pres _ _ _ _ _ halu).2]
          · rw [if_neg hc4] at h
            by_cases hc5 : ir = 0b10100010
            · rw [if_pos hc5] at h
              obtain ⟨x1, -, h⟩ := bind_ok_elim h
              obtain ⟨x2, -, h⟩ := bind_ok_elim h
              obtain ⟨s2, halu, h⟩ := bind_ok_elim h
              rw [pure_eq_ok] at h
              subst h
              simp [stepNext, pcAdvance, (alu_pres _ _ _ _ _ halu).1, (alu_pres _ _ _ _ _ halu).2]
            · rw [if_neg hc5] at h
              by_cases hc6 : ir = 0b10100011
              · rw [if_pos hc6] at h
                obtain ⟨x1, -, h⟩ := bind_ok_elim h
                obtain ⟨x2, -, h⟩ := bind_ok_elim h
                obtain ⟨s2, halu, h⟩ := bind_ok_elim h
                rw [pure_eq_ok] at h
                subst h
                simp [stepNext, pcAdvance, (alu_pres _ _ _ _ _ halu).1, (alu_pres _ _ _ _ _ halu).2]
              · rw [if_neg hc6] at h
                by_cases hc7 : ir = 0b10100100
                · rw [if_pos hc7] at h
                  obtain ⟨x1, -, h⟩ := bind_ok_elim h
                  obtain ⟨x2, -, h⟩ := bind_ok_elim h
                  obtain ⟨s2, halu, h⟩ := bind_ok_elim h
                  rw [pure_eq_ok] at h
                  subst h
                  simp [stepNext, pcAdvance, (alu_pres _ _ _ _ _ halu).1, (alu_pres _ _ _ _ _ halu).2]
                · rw [if_neg hc7] at h
                  by_cases hc8 : ir = 0b10101000
                  · rw [if_pos hc8] at h
                    obtain ⟨x1, -, h⟩ := bind_ok_elim h
                    obtain ⟨x2, -, h⟩ := bind_ok_elim h
                    obtain ⟨s2, halu, h⟩ := bind_ok_elim h
                    rw [pure_eq_ok] at h
                    subst h
                    simp [stepNext, pcAdvance, (alu_pres _ _ _ _ _ halu).1, (alu_pres _ _ _ _ _ halu).2]
                  · rw [if_neg hc8] at h
                    by_cases hc9 : ir = 0b10101010
                    · rw [if_pos hc9] at h
                      obtain ⟨x1, -, h⟩ := bind_ok_elim h
                      obtain ⟨x2, -, h⟩ := bind_ok_elim h
                      obtain ⟨s2, halu, h⟩ := bind_ok_elim h
                      rw [pure_eq_ok] at h
                      subst h
                      simp [stepNext, pcAdvance, (alu_pres _ _ _ _ _ halu).1, (alu_pres _ _ _ _ _ halu).2]
                    · rw [if_neg hc9] at h
                      by_cases hc10 : ir = 0b10101011
                      · rw [if_pos hc10] at h
                        obtain ⟨x1, -, h⟩ := bind_ok_elim h
                        obtain ⟨x2, -, h⟩ := bind_ok_elim h
                        obtain ⟨s2, halu, h⟩ := bind_ok_elim h
                        rw [pure_eq_ok] at h
                        subst h
                        simp [stepNext, pcAdvance, (alu_pres _ _ _ _ _ halu).1, (alu_pres _ _ _ _ _ halu).2]
                      · rw [if_neg hc10] at h
                        by_cases hc11 : ir = 0b01101001
                        · rw [if_pos hc11] at h
                          obtain ⟨x1, -, h⟩ := bind_ok_elim h
                          obtain ⟨s2, halu, h⟩ := bind_ok_elim h
                          rw [pure_eq_ok] at h
                          subst h
                          simp [stepNext, pcAdvance, (alu_pres _ _ _ _ _ halu).1, (alu_pres _ _ _ _ _ halu).2]
                        · rw [if_neg hc11] at h
                          by_cases hc12 : ir = 0b10101100
                          · rw [if_pos hc12] at h
                            obtain ⟨x1, -, h⟩ := bind_ok_elim h
                            obtain ⟨x2, -, h⟩ := bind_ok_elim h
                            obtain ⟨s2, halu, h⟩ := bind_ok_elim h
                            rw [pure_eq_ok] at h
                            subst h
                            simp [stepNext, pcAdvance, (alu_pres _ _ _ _ _ halu).1, (alu_pres _ _ _ _ _ halu).2]
                          · rw [if_neg hc12] at h
                            by_cases hc13 : ir = 0b10101101
                            · rw [if_pos hc13] at h
                              obtain ⟨x1, -, h⟩ := bind_ok_elim h
                              obtain ⟨x2, -, h⟩ := bind_ok_elim h
                              obtain ⟨s2, halu, h⟩ := bind_ok_elim h
                              rw [pure_eq_ok] at h
                              subst h
                              simp [stepNext, pcAdvance, (alu_pres _ _ _ _ _ halu).1, (alu_pres _ _ _ _ _ halu).2]
                            · rw [if_neg hc13] at h
                              by_cases hc14 : ir = 0b01100110
                              · rw [if_pos hc14] at h
                                obtain ⟨x1, -, h⟩ := bind_ok_elim h
                                obtain ⟨s2, halu, h⟩ := bind_ok_elim h
                                rw [pure_eq_ok] at h
                                subst h
                                simp [stepNext, pcAdvance, (alu_pres _ _ _ _ _ halu).1, (alu_pres _ _ _ _ _ halu).2]
                              · rw [if_neg hc14] at h
                                by_cases hc15 : ir = 0b01100101
                                · rw [if_pos hc15] at h
                                  obtain ⟨x1, -, h⟩ := bind_ok_elim h
                                  obtain ⟨s2, halu, h⟩ := bind_ok_elim h
                                  rw [pure_eq_ok] at h
                                  subst h
                                  simp [stepNext, pcAdvance, (alu_pres _ _ _ _ _ halu).1, (alu_pres _ _ _ _ _ halu).2]
                                · rw [if_neg hc15] at h
                                  by_cases hc16 : ir = 0b10100111
                                  · rw [if_pos hc16] at h
                                    obtain ⟨x1, -, h⟩ := bind_ok_elim h
                                    obtain ⟨x2, -, h⟩ := bind_ok_elim h
                                    obtain ⟨s2, halu, h⟩ := bind_ok_elim h
                                    rw [pure_eq_ok] at h
                                    subst h
                                    simp [stepNext, pcAdvance, (alu_pres _ _ _ _ _ halu).1, (alu_pres _ _ _ _ _ halu).2]
                                  · rw [if_neg hc16] at h
                                    by_cases hc17 : ir = 0b01010100
                                    · rw [if_pos hc17] at h
                                      obtain ⟨x1, -, h⟩ := bind_ok_elim h
                                      obtain ⟨x2, -, h⟩ := bind_ok_elim h
                                      rw [pure_eq_ok] at h
                                      subst h
                                      simp [stepJump] at hj
                                    · rw [if_neg hc17] at h
                                      by_cases hc18 : ir = 0b01010101
                                      · rw [if_pos hc18] at h
                                        by_cases hfl : Int.land ({ s with ir := ir } : CPUState).fl 0b00000001 ≠ 0
                                        · rw [if_pos hfl] at h
                                          obtain ⟨x1, -, h⟩ := bind_ok_elim h
                                          obtain ⟨x2, -, h⟩ := bind_ok_elim h
                                          rw [pure_eq_ok] at h
                                          subst h
                                          simp [stepJump] at hj
                                        · rw [if_neg hfl] at h
                                          rw [pure_eq_ok] at h
                                          subst h
                                          simp [stepNext, pcAdvance]
                                      · rw [if_neg hc18] at h
                                        by_cases hc19 : ir = 0b01011010
                                        · rw [if_pos hc19] at h
                                          by_cases hfl : Int.land ({ s with ir := ir } : CPUState).fl 0b00000011 ≠ 0
                                          · rw [if_pos hfl] at h
                                            obtain ⟨x1, -, h⟩ := bind_ok_elim h
                                            obtain ⟨x2, -, h⟩ := bind_ok_elim h
                                            rw [pure_eq_ok] at h
                                            subst h
                                            simp [stepJump] at hj
                                          · rw [if_neg hfl] at h
                                            rw [pure_eq_ok] at h
                                            subst h
                                            simp [stepNext, pcAdvance]
                                        · rw [if_neg hc19] at h
                                          by_cases hc20 : ir = 0b01010111
                                          · rw [if_pos hc20] at h
                                            by_cases hfl : Int.land ({ s with ir := ir } : CPUState).fl 0b00000010 ≠ 0
                                            · rw [if_pos hfl] at h
                                              obtain ⟨x1, -, h⟩ := bind_ok_elim h
                                              obtain ⟨x2, -, h⟩ := bind_ok_elim h
                                              rw [pure_eq_ok] at h
                                              subst h
                                              simp [stepJump] at hj
                                            · rw [if_neg hfl] at h
                                              rw [pure_eq_ok] at h
                                              subst h
                                              simp [stepNext, pcAdvance]
                                          · rw [if_neg hc20] at h
                                            by_cases hc21 : ir = 0b01011001
                                            · rw [if_pos hc21] at h
                                              by_cases hfl : Int.land ({ s with ir := ir } : CPUState).fl 0b00000100 ≠ 0
                                              · rw [if_pos hfl] at h
                                                obtain ⟨x1, -, h⟩ := bind_ok_elim h
                                                obtain ⟨x2, -, h⟩ := bind_ok_elim h
                                                rw [pure_eq_ok] at h
                                                subst h
                                                simp [stepJump] at hj
                                              · rw [if_neg hfl] at h
                                                rw [pure_eq_ok] at h
                                                subst h
                                                simp [stepNext, pcAdvance]
                                            · rw [if_neg hc21] at h
                                              by_cases hc22 : ir = 0b01011000
                                              · rw [if_pos hc22] at h
                                                by_cases hfl : Int.land ({ s with ir := ir } : CPUState).fl 0b00000101 ≠ 0
                                                · rw [if_pos hfl] at h
                                                  obtain ⟨x1, -, h⟩ := bind_ok_elim h
                                                  obtain ⟨x2, -, h⟩ := bind_ok_elim h
                                                  rw [pure_eq_ok] at h
                                                  subst h
                                                  simp [stepJump] at hj
                                                · rw [if_neg hfl] at h
                                                  rw [pure_eq_ok] at h
                                                  subst h
                                                  simp [stepNext, pcAdvance]
                                              · rw [if_neg hc22] at h
                                                by_cases hc23 : ir = 0b01010110
                                                · rw [if_pos hc23] at h
                                                  by_cases hfl : ¬ Int.land ({ s with ir := ir } : CPUState).fl 0b00000001 ≠ 0
                                                  · rw [if_pos hfl] at h
                                                    obtain ⟨x1, -, h⟩ := bind_ok_elim h
                                                    obtain ⟨x2, -, h⟩ := bind_ok_elim h
                                                    rw [pure_eq_ok] at h
                                                    subst h
                                                    simp [stepJump] at hj
                                                  · rw [if_neg hfl] at h
                                                    rw [pure_eq_ok] at h
                                                    subst h
                                                    simp [stepNext, pcAdvance]
                                                · rw [if_neg hc23] at h
                                                  by_cases hc24 : ir = 0b01000101
                                                  · rw [if_pos hc24] at h
                                                    obtain ⟨x1, -, h⟩ := bind_ok_elim h
                                                    obtain ⟨x2, -, h⟩ := bind_ok_elim h
                                                    obtain ⟨s2, hpush, h⟩ := bind_ok_elim h
                                                    rw [pure_eq_ok] at h
                                                    subst h
                                                    simp [stepNext, pcAdvance, (stack_push_pres _ _ _ hpush).1, (stack_push_pres _ _ _ hpush).2]
                                                  · rw [if_neg hc24] at h
                                                    by_cases hc25 : ir = 0b01000110
                                                    · rw [if_pos hc25] at h
                                                      obtain ⟨p1, hpop, h⟩ := bind_ok_elim h
                                                      obtain ⟨x2, -, h⟩ := bind_ok_elim h
                                                      obtain ⟨x3, -, h⟩ := bind_ok_elim h
                                                      rw [pure_eq_ok] at h
                                                      subst h
                                                      simp [stepNext, pcAdvance, (stack_pop_pres _ _ hpop).1, (stack_pop_pres _ _ hpop).2.1]
                                                    · rw [if_neg hc25] at h
                                                      by_cases hc26 : ir = 0b10000100
                                                      · rw [if_pos hc26] at h
                                                        obtain ⟨x1, -, h⟩ := bind_ok_elim h
                                                        obtain ⟨x2, -, h⟩ := bind_ok_elim h
                                                        obtain ⟨x3, -, h⟩ := bind_ok_elim h
                                                        obtain ⟨x4, -, h⟩ := bind_ok_elim h
                                                        obtain ⟨x5, -, h⟩ := bind_ok_elim h
                                                        rw [pure_eq_ok] at h
                                                        subst h
                                                        simp [stepNext, pcAdvance]
                                                      · rw [if_neg hc26] at h
                                                        by_cases hc27 : ir = 0b10000011
                                                        · rw [if_pos hc27] at h
                                                          obtain ⟨x1, -, h⟩ := bind_ok_elim h
                                                          obtain ⟨x2, -, h⟩ := bind_ok_elim h
                                                          obtain ⟨x3, -, h⟩ := bind_ok_elim h
                                                          obtain ⟨x4, -, h⟩ := bind_ok_elim h
                                                          obtain ⟨x5, -, h⟩ := bind_ok_elim h
                                                          rw [pure_eq_ok] at h
                                                          subst h
                                                          simp [stepNext, pcAdvance]
                                                        · rw [if_neg hc27] at h
                                                          by_cases hc28 : ir = 0b01010010
                                                          · rw [if_pos hc28] at h
                                                            obtain ⟨x1, -, h⟩ := bind_ok_elim h
                                                            obtain ⟨x2, -, h⟩ := bind_ok_elim h
                                                            obtain ⟨x3, -, h⟩ := bind_ok_elim h
                                                            obtain ⟨x4, -, h⟩ := bind_ok_elim h
                                                            rw [pure_eq_ok] at h
                                                            subst h
                                                            simp [stepNext, pcAdvance]
                                                          · rw [if_neg hc28] at h
                                                            by_cases hc29 : ir = 0b00010011
                                                            · rw [if_pos hc29] at h
                                                              obtain ⟨s2, -, h⟩ := bind_ok_elim h
                                                              obtain ⟨p1, -, h⟩ := bind_ok_elim h
                                                              obtain ⟨p2, -, h⟩ := bind_ok_elim h
                                                              rw [pure_eq_ok] at h
                                                              subst h
                                                              simp [stepJump] at hj
                                                            · rw [if_neg hc29] at h
                                                              by_cases hc30 : ir = 0b00000001
                                                              · rw [if_pos hc30] at h
                                                                rw [pure_eq_ok] at h
                                                                subst h
                                                                simp [stepNext, pcAdvance]
                                                              · rw [if_neg hc30] at h
                                                                exact Except.noConfusion h

theorem pySet_inv (l : List Int) (i v : Int) (l' : List Int) (h : pySet l i v = .ok l') :
    ∃ k, pyIdx l.length i = some k ∧ l' = l.set k v := by
  unfold pySet at h
  cases hk : pyIdx l.length i with
  | none => rw [hk] at h; exact Except.noConfusion h
  | some k => rw [hk] at h; exact ⟨k, rfl, (Except.ok.inj h).symm⟩

theorem stack_pop_inv (s : CPUState) (p : CPUState × Int) (hlen : s.reg.length = 8)
    (h : stack_pop s = .ok p) :
    p.1.ram = s.ram ∧ p.1.pc = s.pc ∧ p.1.ir = s.ir ∧ p.1.fl = s.fl ∧
    p.1.interrupts_enabled = s.interrupts_enabled ∧
    p.1.reg = s.reg.set 7 (s.reg.getD 7 0 + 1) ∧
    ram_read s.ram (s.reg.getD 7 0) = .ok p.2 := by
  unfold stack_pop at h
  have hg : pyGet s.reg 7 = .ok (s.reg.getD 7 0) := by
    have := pyGet_nonneg s.reg 7 (by decide) (by rw [hlen]; decide)
    rw [show ((7 : Int).toNat) = 7 from rfl] at this
    exact this
  rw [hg, ok_bind] at h
  have hset : pySet s.reg 7 (s.reg.getD 7 0 + 1) = .ok (s.reg.set 7 (s.reg.getD 7 0 + 1)) := by
    have := pySet_nonneg s.reg 7 (s.reg.getD 7 0 + 1) (by decide) (by rw [hlen]; decide)
    rw [show ((7 : Int).toNat) = 7 from rfl] at this
    exact this
  rw [hset, ok_bind] at h
  obtain ⟨v, hv, h⟩ := bind_ok_elim h
  rw [pure_eq_ok] at h
  subst h
  rw [show s.reg.getD 7 0 + 1 - 1 = s.reg.getD 7 0 from by ring] at hv
  exact ⟨rfl, rfl, rfl, rfl, rfl, rfl, hv⟩

/-- Success inversion for the IRET register-restoring loop: it leaves RAM, PC,
IR, FL and the enabled flag unchanged and increments SP by the number of pops. -/
theorem popRegs_inv (n : Nat) (s s' : CPUState) (hn : n ≤ 7) (hlen : s.reg.length = 8)
    (h : popRegs s n = .ok s') :
    s'.ram = s.ram ∧ s'.pc = s.pc ∧ s'.ir = s.ir ∧ s'.fl = s.fl ∧
    s'.interrupts_enabled = s.interrupts_enabled ∧ s'.reg.length = 8 ∧
    s'.reg.getD 7 0 = s.reg.getD 7 0 + n := by
  induction n generalizing s with
  | zero =>
    obtain rfl := Except.ok.inj h
    simp [hlen]
  | succ n ih =>
    simp only [popRegs] at h
    obtain ⟨p, hpop, h⟩ := bind_ok_elim h
    obtain ⟨reg', hset, h⟩ := bind_ok_elim h
    have hp := stack_pop_inv s p hlen hpop
    obtain ⟨k, hk, rfl⟩ := pySet_inv _ _ _ _ hset
    have hplen : p.1.reg.length = 8 := by
      rw [hp.2.2.2.2.2.1]
      simpa using hlen
    have hkn : k = n := by
      rw [hplen, pyIdx_nonneg 8 (n : Int) (by positivity)
        (by exact_mod_cast (show n < 8 by omega))] at hk
      have hkk := Option.some.inj hk
      omega
    subst hkn
    have hrec := ih { p.1 with reg := p.1.reg.set k p.2 } (by omega)
      (by simpa using hplen) h
    have hg7 : (p.1.reg.set k p.2).getD 7 0 = s.reg.getD 7 0 + 1 := by
      rw [getD_set_other _ _ _ _ 0 (by omega), hp.2.2.2.2.2.1,
        getD_set_self _ _ _ _ (by omega)]
    refine ⟨?_, ?_, ?_, ?_, ?_, hrec.2.2.2.2.2.1, ?_⟩
    · rw [hrec.1]; exact hp.1
    · rw [hrec.2.1]; exact hp.2.1
    · rw [hrec.2.2.1]; exact hp.2.2.1
    · rw [hrec.2.2.2.1]; exact hp.2.2.2.1
    · rw [hrec.2.2.2.2.1]; exact hp.2.2.2.2.1
    · rw [hrec.2.2.2.2.2.2]
      rw [show ({ p.1 with reg := p.1.reg.set k p.2 } : CPUState).reg = p.1.reg.set k p.2 from rfl]
      rw [hg7]
      push_cast
      ring

/-- A taken jump (JMP or a conditional variant whose test holds) sets PC to
the value held in the register named by the operand byte. -/
theorem exec_jump_target (s : CPUState) (r : StepResult) (ir : Int)
    (h : execInstr s = .ok r) (hf : ram_read s.ram s.pc = .ok ir)
    (hmem : ir ∈ ([0b01010100, 0b01010101, 0b01011010, 0b01010111, 0b01011001, 0b01011000, 0b01010110] : List Int))
    (hj : r.jumped = true) :
    ∃ rb t, ram_read s.ram (s.pc + 1) = .ok rb ∧ pyGet s.reg rb = .ok t ∧
      r.state.pc = t := by
  unfold execInstr at h
  rw [hf, ok_bind] at h
  fin_cases hmem
  · simp only [Int.reduceEq, reduceIte] at h
    obtain ⟨rb, hrb, h⟩ := bind_ok_elim h
    obtain ⟨t, ht, h⟩ := bind_ok_elim h
    rw [pure_eq_ok] at h
    subst h
    exact ⟨rb, t, hrb, ht, rfl⟩
  · simp only [Int.reduceEq, reduceIte] at h
    by_cases hfl : Int.land s.fl 0b00000001 ≠ 0
    · rw [if_pos hfl] at h
      obtain ⟨rb, hrb, h⟩ := bind_ok_elim h
      obtain ⟨t, ht, h⟩ := bind_ok_elim h
      rw [pure_eq_ok] at h
      subst h
      exact ⟨rb, t, hrb, ht, rfl⟩
    · rw [if_neg hfl] at h
      rw [pure_eq_ok] at h
      subst h
      simp [stepNext] at hj
  · simp only [Int.reduceEq, reduceIte] at h
    by_cases hfl : Int.land s.fl 0b00000011 ≠ 0
    · rw [if_pos hfl] at h
      obtain ⟨rb, hrb, h⟩ := bind_ok_elim h
      obtain ⟨t, ht, h⟩ := bind_ok_elim h
      rw [pure_eq_ok] at h
      subst h
      exact ⟨rb, t, hrb, ht, rfl⟩
    · rw [if_neg hfl] at h
      rw [pure_eq_ok] at h
      subst h
      simp [stepNext] at hj
  · simp only [Int.reduceEq, reduceIte] at h
    by_cases hfl : Int.land s.fl 0b00000010 ≠ 0
    · rw [if_pos hfl] at h
      obtain ⟨rb, hrb, h⟩ := bind_ok_elim h
      obtain ⟨t, ht, h⟩ := bind_ok_elim h
      rw [pure_eq_ok] at h
      subst h
      exact ⟨rb, t, hrb, ht, rfl⟩
    · rw [if_neg hfl] at h
      rw [pure_eq_ok] at h
      subst h
      simp [stepNext] at hj
  · simp only [Int.reduceEq, reduceIte] at h
    by_cases hfl : Int.land s.fl 0b00000100 ≠ 0
    · rw [if_pos hfl] at h
      obtain ⟨rb, hrb, h⟩ := bind_ok_elim h
      obtain ⟨t, ht, h⟩ := bind_ok_elim h
      rw [pure_eq_ok] at h
      subst h
      exact ⟨rb, t, hrb, ht, rfl⟩
    · rw [if_neg hfl] at h
      rw [pure_eq_ok] at h
      subst h
      simp [stepNext] at hj
  · simp only [Int.reduceEq, reduceIte] at h
    by_cases hfl : Int.land s.fl 0b00000101 ≠ 0
    · rw [if_pos hfl] at h
      obtain ⟨rb, hrb, h⟩ := bind_ok_elim h
      obtain ⟨t, ht, h⟩ := bind_ok_elim h
      rw [pure_eq_ok] at h
      subst h
      exact ⟨rb, t, hrb, ht, rfl⟩
    · rw [if_neg hfl] at h
      rw [pure_eq_ok] at h
      subst h
      simp [stepNext] at hj
  · simp only [Int.reduceEq, reduceIte] at h
    by_cases hfl : ¬ Int.land s.fl 0b00000001 ≠ 0
    · rw [if_pos hfl] at h
      obtain ⟨rb, hrb, h⟩ := bind_ok_elim h
      obtain ⟨t, ht, h⟩ := bind_ok_elim h
      rw [pure_eq_ok] at h
      subst h
      exact ⟨rb, t, hrb, ht, rfl⟩
    · rw [if_neg hfl] at h
      rw [pure_eq_ok] at h
      subst h
      simp [stepNext] at hj

/-- IRET sets PC to the ninth popped value, the byte at `SP + 8`, with no
generic advance. -/
theorem exec_iret_target (s : CPUState) (r : StepResult)
    (h : execInstr s = .ok r) (hf : ram_read s.ram s.pc = .ok 0b00010011)
    (hreg : s.reg.length = 8) :
    ram_read s.ram (s.reg.getD 7 0 + 8) = .ok r.state.pc ∧ r.jumped = true := by
  unfold execInstr at h
  rw [hf, ok_bind] at h
  simp only [Int.reduceEq, reduceIte] at h
  obtain ⟨s7, hpr, h⟩ := bind_ok_elim h
  obtain ⟨pf, hpf, h⟩ := bind_ok_elim h
  obtain ⟨pp, hpp, h⟩ := bind_ok_elim h
  rw [pure_eq_ok] at h
  subst h
  have h7 := popRegs_inv 7 _ s7 (by omega) (by simpa using hreg) hpr
  have hlen7 : s7.reg.length = 8 := h7.2.2.2.2.2.1
  have hf1 := stack_pop_inv s7 pf hlen7 hpf
  have hlenf : ({ pf.1 with fl := pf.2 } : CPUState).reg.length = 8 := by
    rw [show ({ pf.1 with fl := pf.2 } : CPUState).reg = pf.1.reg from rfl, hf1.2.2.2.2.2.1]
    simpa using hlen7
  have hf2 := stack_pop_inv { pf.1 with fl := pf.2 } pp hlenf hpp
  have hg7 : s7.reg.getD 7 0 = s.reg.getD 7 0 + 7 := by simpa using h7.2.2.2.2.2.2
  have hfin : ram_read s.ram (s.reg.getD 7 0 + 8) = .ok pp.2 := by
    have hrd := hf2.2.2.2.2.2.2
    rw [show ({ pf.1 with fl := pf.2 } : CPUState).ram = pf.1.ram from rfl] at hrd
    rw [show ({ pf.1 with fl := pf.2 } : CPUState).reg = pf.1.reg from rfl] at hrd
    rw [hf1.1] at hrd
    rw [hf1.2.2.2.2.2.1] at hrd
    rw [getD_set_self _ _ _ _ (by omega)] at hrd
    rw [hg7] at hrd
    rw [show s.reg.getD 7 0 + 7 + 1 = s.reg.getD 7 0 + 8 from by ring] at hrd
    have hram7 : s7.ram = s.ram := by simpa using h7.1
    rw [hram7] at hrd
    exact hrd
  exact ⟨hfin, rfl⟩

/-- An interrupt trap sets PC to the vector-table entry with no generic
advance. -/
theorem exec_trap_target (s : CPUState) (sp : Int) (m i : Nat)
    (hen : s.interrupts_enabled = true)
    (hreg : s.reg.length = 8) (hram : s.ram.length = 256)
    (him : s.reg.getD 5 0 = 255)
    (hm : s.reg.getD 6 0 = (m : Int)) (hm256 : m < 256)
    (hbit : m.testBit i = true) (hlow : ∀ j < i, m.testBit j = false)
    (hsp : s.reg.getD 7 0 = sp) (h9 : 9 ≤ sp) (h248 : sp ≤ 248) :
    (interruptCheck s).map (fun t => t.pc) = .ok (s.ram.getD (248 + i) 0) := by
  rw [interruptCheck_trap s sp m i hen hreg hram him hm hm256 hbit hlow hsp h9 h248]
  rfl

/-- C7: for every executed instruction that is not a taken control transfer
(a branch not ending in continue, including a conditional jump whose test
fails), PC increases by exactly n + 1 where n is the operand count encoded
in the two most significant bits of the opcode; for every control transfer
actually taken — JMP or a taken conditional jump, IRET, or an interrupt
trap — PC equals the transfer target with no additional increment. -/
theorem pc_advance_spec :
    (∀ (s : CPUState) (r : StepResult), execInstr s = .ok r → r.jumped = false →
      r.state.pc = s.pc + (r.state.ir >>> (6 : Int)) + 1) ∧
    (∀ (s : CPUState) (r : StepResult) (ir : Int), execInstr s = .ok r →
      ram_read s.ram s.pc = .ok ir →
      ir ∈ ([0b01010100, 0b01010101, 0b01011010, 0b01010111, 0b01011001, 0b01011000, 0b01010110] : List Int) →
      r.jumped = true →
      ∃ rb t, ram_read s.ram (s.pc + 1) = .ok rb ∧ pyGet s.reg rb = .ok t ∧ r.state.pc = t) ∧
    (∀ (s : CPUState) (r : StepResult), execInstr s = .ok r →
      ram_read s.ram s.pc = .ok 0b00010011 → s.reg.length = 8 →
      ram_read s.ram (s.reg.getD 7 0 + 8) = .ok r.state.pc ∧ r.jumped = true) ∧
    (∀ (s : CPUState) (sp : Int) (m i : Nat), s.interrupts_enabled = true →
      s.reg.length = 8 → s.ram.length = 256 → s.reg.getD 5 0 = 255 →
      s.reg.getD 6 0 = (m : Int) → m < 256 → m.testBit i = true →
      (∀ j < i, m.testBit j = false) → s.reg.getD 7 0 = sp → 9 ≤ sp → sp ≤ 248 →
      (interruptCheck s).map (fun t => t.pc) = .ok (s.ram.getD (248 + i) 0)) :=
  ⟨exec_pc_nonjump, exec_jump_target, exec_iret_target,
    fun s sp m i hen hreg hram him hm hm256 hbit hlow hsp h9 h248 =>
      exec_trap_target s sp m i hen hreg hram him hm hm256 hbit hlow hsp h9 h248⟩

/-- A concrete LDI state for the C7 witness. -/
def c7demo : CPUState :=
  { pc := 0, ir := 0, mar := 0, mdr := 0, fl := 0, ram := [0b10000010, 0, 5, 0],
    reg := [0, 0, 0, 0, 0, 0, 0, 4], interrupts_enabled := true }

/-- Result of executing the LDI instruction of `c7demo`. -/
def c7res : StepResult := ((execInstr c7demo).toOption).getD default

/-- A concrete JMP state for the C7 witness. -/
def c7jdemo : CPUState :=
  { pc := 0, ir := 0, mar := 0, mdr := 0, fl := 0, ram := [0b01010100, 0],
    reg := [7, 0, 0, 0, 0, 0, 0, 4], interrupts_enabled := true }

/-- Result of executing the JMP instruction of `c7jdemo`. -/
def c7jres : StepResult := ((execInstr c7jdemo).toOption).getD default

set_option maxRecDepth 20000 in
/-- C7 witness: the advance conjunct applied at a concrete LDI instruction
and the jump conjunct applied at a concrete JMP instruction. -/
theorem pc_advance_spec_witness :
    c7res.state.pc = c7demo.pc + (c7res.state.ir >>> (6 : Int)) + 1 ∧
    (∃ rb t, ram_read c7jdemo.ram (c7jdemo.pc + 1) = .ok rb ∧
      pyGet c7jdemo.reg rb = .ok t ∧ c7jres.state.pc = t) :=
  ⟨pc_advance_spec.1 c7demo c7res rfl rfl,
   pc_advance_spec.2.1 c7jdemo c7jres 0b01010100 rfl rfl (by decide) rfl⟩

end LS8
